import Mathlib

/-!
Verification of the Metric Extraction & Evaluation Scoring Engine of
`eval_metrics_harness.py` (repository `cn-asc/ascend-performance-updates`).

The Python source is shallowly embedded: Python strings become `String`
(manipulated as `List Char`), Python floats become the exact model `PyFloat`
(a rational, or one of the IEEE specials `inf`, `-inf`, `nan`), parsed JSON
values become the inductive `Json`, Python dicts become association lists in
insertion order with overwrite-on-insert, and fallible code returns
`Option`/`Except`.  Functions keep the names of the Python functions they
embed (leading underscores dropped).  The standard-library collaborators
(`json.loads`, `float(str)`, `str` methods, the handful of `re` patterns the
harness uses) are modelled directly on their documented behaviour; float
arithmetic is modelled exactly over `ℚ` (the harness only scales by powers of
ten and compares against coarse tolerances, so rounding is immaterial), and
error messages of `json.loads` are modelled by their CPython message class
(the harness only substring-tests them for "escape"/"Invalid").
-/

/-! ### Python character and string primitives -/

/-- Opening curly bracket character (written by code point to keep source plain). -/
def cLB : Char := Char.ofNat 123

/-- Closing curly bracket character. -/
def cRB : Char := Char.ofNat 125

/-- Opening square bracket character. -/
def cLS : Char := Char.ofNat 91

/-- Closing square bracket character. -/
def cRS : Char := Char.ofNat 93

/-- Double-quote character. -/
def cDQ : Char := Char.ofNat 34

/-- Backslash character. -/
def cBS : Char := Char.ofNat 92

/-- Newline character. -/
def cNL : Char := Char.ofNat 10

/-- Python `str.isspace` / whitespace model: ASCII space, TAB, LF, CR, VT, FF. -/
def py_is_space (c : Char) : Bool :=
  c.toNat = 32 || c.toNat = 9 || c.toNat = 10 || c.toNat = 13 || c.toNat = 11 || c.toNat = 12

/-- Drop leading whitespace characters. -/
def lc_lstrip (l : List Char) : List Char := l.dropWhile py_is_space

/-- Drop trailing whitespace characters. -/
def lc_rstrip (l : List Char) : List Char := (l.reverse.dropWhile py_is_space).reverse

/-- Python `str.strip()` on a character list. -/
def lc_strip (l : List Char) : List Char := lc_rstrip (lc_lstrip l)

/-- Python `str.lower()` (ASCII model). -/
def lc_lower (l : List Char) : List Char := l.map Char.toLower

/-- Python `str.upper()` (ASCII model). -/
def lc_upper (l : List Char) : List Char := l.map Char.toUpper

/-- Python `str.rstrip(set)`: drop trailing characters that belong to `set`. -/
def lc_rstrip_set (set : List Char) (l : List Char) : List Char :=
  (l.reverse.dropWhile (fun c => set.contains c)).reverse

/-- Does list `l` start with the pattern `p`? -/
def lc_starts : List Char → List Char → Bool
  | _, [] => true
  | [], _ :: _ => false
  | c :: cs, p :: ps => c = p && lc_starts cs ps

/-- Index of the first occurrence of pattern `pat` in `l` (Python `str.find`),
`none` when absent.  The empty pattern matches at index 0, as in Python. -/
def lc_find_sub : List Char → List Char → Option Nat
  | l, pat =>
    match l with
    | [] => if pat.isEmpty then some 0 else none
    | _ :: cs =>
      if lc_starts l pat then some 0
      else (lc_find_sub cs pat).map (· + 1)

/-- Python `in` on strings: substring containment. -/
def lc_contains_sub (l pat : List Char) : Bool := (lc_find_sub l pat).isSome

/-- Python `str.split()` (no argument): split on whitespace runs, dropping empties. -/
def lc_split_ws : List Char → List (List Char)
  | [] => []
  | c :: cs =>
    if py_is_space c then lc_split_ws cs
    else
      match lc_split_ws cs with
      | [] => [[c]]
      | w :: ws =>
        match cs with
        | [] => [[c]]
        | d :: _ => if py_is_space d then [c] :: w :: ws else (c :: w) :: ws

/-- Python `str.split(sep)` for a single-character separator, keeping empties. -/
def lc_split_char (sep : Char) : List Char → List (List Char)
  | [] => [[]]
  | c :: cs =>
    let r := lc_split_char sep cs
    if c = sep then [] :: r
    else
      match r with
      | [] => [[c]]
      | w :: ws => (c :: w) :: ws

/-- String wrapper: Python `s.strip()`. -/
def py_strip (s : String) : String := String.mk (lc_strip s.data)

/-- String wrapper: Python `s.lower()`. -/
def py_lower (s : String) : String := String.mk (lc_lower s.data)

/-- String wrapper: Python `s.upper()`. -/
def py_upper (s : String) : String := String.mk (lc_upper s.data)

/-- String wrapper: Python `needle in hay`. -/
def py_contains (hay needle : String) : Bool := lc_contains_sub hay.data needle.data

/-- String wrapper: Python `s.startswith(p)`. -/
def py_starts_with (s p : String) : Bool := lc_starts s.data p.data

/-! ### Python float model

Python floats are modelled exactly: a rational number, or one of the IEEE
special values.  The harness never relies on binary rounding (it scales by
powers of ten and compares with tolerance `0.01`), so the exact model is
observationally faithful on all inputs the claims quantify over. -/

/-- Model of a Python `float` value. -/
inductive PyFloat where
  | finite (q : ℚ)
  | inf
  | ninf
  | nan
deriving DecidableEq

/-- Python `x != x`, true exactly for `nan`. -/
def pyf_is_nan : PyFloat → Bool
  | .nan => true
  | _ => false

/-- Is the float a finite number (not `inf`, `-inf` or `nan`)?  Python
`math.isfinite`. -/
def pyf_is_finite : PyFloat → Bool
  | .finite _ => true
  | _ => false

/-- `abs` on the float model. -/
def pyf_abs : PyFloat → PyFloat
  | .finite q => .finite |q|
  | .inf => .inf
  | .ninf => .inf
  | .nan => .nan

/-- Python `<` on floats: any comparison with `nan` is false. -/
def pyf_lt : PyFloat → PyFloat → Bool
  | .nan, _ => false
  | _, .nan => false
  | .finite a, .finite b => a < b
  | .finite _, .inf => true
  | .finite _, .ninf => false
  | .inf, _ => false
  | .ninf, .ninf => false
  | .ninf, _ => true

/-- Python `<=` on floats: any comparison with `nan` is false. -/
def pyf_le : PyFloat → PyFloat → Bool
  | .nan, _ => false
  | _, .nan => false
  | .finite a, .finite b => a ≤ b
  | .finite _, .inf => true
  | .finite _, .ninf => false
  | .inf, .inf => true
  | .inf, _ => false
  | .ninf, _ => true

/-- Python `x > y` on floats. -/
def pyf_gt (a b : PyFloat) : Bool := pyf_lt b a

/-- Negation on the float model. -/
def pyf_neg : PyFloat → PyFloat
  | .finite q => .finite (-q)
  | .inf => .ninf
  | .ninf => .inf
  | .nan => .nan

/-- Subtraction on the float model (`inf - inf = nan`, as in IEEE). -/
def pyf_sub : PyFloat → PyFloat → PyFloat
  | .nan, _ => .nan
  | _, .nan => .nan
  | .finite a, .finite b => .finite (a - b)
  | .finite _, .inf => .ninf
  | .finite _, .ninf => .inf
  | .inf, .inf => .nan
  | .inf, _ => .inf
  | .ninf, .ninf => .nan
  | .ninf, _ => .ninf

/-- Multiplication by 100 (`pred * 100` in the reconciler). -/
def pyf_mul100 : PyFloat → PyFloat
  | .finite q => .finite (q * 100)
  | .inf => .inf
  | .ninf => .ninf
  | .nan => .nan

/-- Division by 100 (`pred / 100.0` in the reconciler). -/
def pyf_div100 : PyFloat → PyFloat
  | .finite q => .finite (q / 100)
  | .inf => .inf
  | .ninf => .ninf
  | .nan => .nan

/-- Python truthiness of a float: `0.0` is falsy, everything else (also `nan`) truthy. -/
def pyf_truthy : PyFloat → Bool
  | .finite q => !(q = 0)
  | _ => true

/-- The float one, used for the reconciler's fraction/percent thresholds. -/
def pyf_one : PyFloat := .finite 1

/-! ### Model of Python `float(str)` -/

/-- Numeric value of a digit list (most significant first). -/
def lc_nat_of_digits (l : List Char) : ℕ :=
  l.foldl (fun acc c => acc * 10 + (c.toNat - 48)) 0

/-- `10^e` over `ℚ` for an integer exponent. -/
def qpow10 (e : ℤ) : ℚ :=
  if 0 ≤ e then (10 : ℚ) ^ e.toNat else 1 / (10 : ℚ) ^ (-e).toNat

/-- Exponent suffix of a float literal: all remaining characters must be digits,
at least one.  Returns the exponent magnitude. -/
def py_float_exp_digits (r : List Char) : Option ℕ :=
  let d := r.takeWhile Char.isDigit
  if d.isEmpty || !(r.dropWhile Char.isDigit).isEmpty then none
  else some (lc_nat_of_digits d)

/-- Mantissa digits `d1 . d2` with trailing input `rest` holding an optional
`e`-exponent; yields the exact rational value. -/
def py_float_exp (d1 d2 rest : List Char) : Option ℚ :=
  let mant : ℚ := (lc_nat_of_digits (d1 ++ d2) : ℚ) / (10 : ℚ) ^ d2.length
  match rest with
  | [] => some mant
  | e :: r =>
    if e = 'e' then
      match r with
      | '-' :: r2 => (py_float_exp_digits r2).map (fun n => mant * qpow10 (-(n : ℤ)))
      | '+' :: r2 => (py_float_exp_digits r2).map (fun n => mant * qpow10 (n : ℤ))
      | _ => (py_float_exp_digits r).map (fun n => mant * qpow10 (n : ℤ))
    else none

/-- Decimal part of `float(str)` after the optional sign: `digits [. digits] [e..]`
or `. digits [e..]`. -/
def py_float_dec (l : List Char) : Option ℚ :=
  let d1 := l.takeWhile Char.isDigit
  let r1 := l.dropWhile Char.isDigit
  match r1 with
  | '.' :: r2 =>
    let d2 := r2.takeWhile Char.isDigit
    let r3 := r2.dropWhile Char.isDigit
    if d1.isEmpty && d2.isEmpty then none else py_float_exp d1 d2 r3
  | _ => if d1.isEmpty then none else py_float_exp d1 [] r1

/-- Unsigned part of `float(str)`: decimal literal, `inf`, `infinity` or `nan`
(input already lower-cased). -/
def py_float_core (l : List Char) : Option PyFloat :=
  if l = ("inf").data || l = ("infinity").data then some .inf
  else if l = ("nan").data then some .nan
  else (py_float_dec l).map (fun q => .finite q)

/-- Model of Python `float(str)`: surrounding whitespace ignored, case-insensitive,
optional sign, decimal/`inf`/`nan` forms; `none` models `ValueError`.
(PEP-515 digit underscores and overflow-to-infinity are outside the model.) -/
def py_float_of_string (s : String) : Option PyFloat :=
  let l := lc_lower (lc_strip s.data)
  match l with
  | '-' :: rest => (py_float_core rest).map pyf_neg
  | '+' :: rest => py_float_core rest
  | _ => py_float_core l

/-! ### Parsed JSON values and Python dicts -/

/-- A parsed JSON value (the result type of `json.loads`); Python `None` is
`Json.null`, and a missing dict key is reported as `Json.null` by `dict_get`,
mirroring `dict.get`'s default `None`. -/
inductive Json where
  | null
  | bool (b : Bool)
  | num (x : PyFloat)
  | str (s : String)
  | arr (items : List Json)
  | obj (fields : List (String × Json))

/-- A Python dict of JSON values: association list in insertion order. -/
abbrev PyDict := List (String × Json)

/-- Python `d.get(k)` (default `None`): first binding of `k`, else `Json.null`. -/
def dict_get : PyDict → String → Json
  | [], _ => .null
  | (k', v) :: rest, k => if k' = k then v else dict_get rest k

/-- Python `k in d`. -/
def dict_contains : PyDict → String → Bool
  | [], _ => false
  | (k', _) :: rest, k => k' = k || dict_contains rest k

/-- Python `d[k] = v`: overwrite in place, else append (insertion order kept). -/
def dict_set : PyDict → String → Json → PyDict
  | [], k, v => [(k, v)]
  | (k', v') :: rest, k, v =>
    if k' = k then (k', v) :: rest else (k', v') :: dict_set rest k v

/-- Python truthiness of a parsed value (`if data:`). -/
def py_truthy : Json → Bool
  | .null => false
  | .bool b => b
  | .num x => pyf_truthy x
  | .str s => !s.data.isEmpty
  | .arr items => !items.isEmpty
  | .obj fields => !fields.isEmpty

/-- Python `type(v).__name__` for a parsed JSON value (all JSON numbers are
reported as `float`; CPython reports unfractioned literals as `int`, a
difference the harness never observes beyond an error-message suffix). -/
def py_type_name : Json → String
  | .null => "NoneType"
  | .bool _ => "bool"
  | .num _ => "float"
  | .str _ => "str"
  | .arr _ => "list"
  | .obj _ => "dict"

/-! ### Model of `json.loads`

A strict RFC-8259 parser plus CPython's `NaN`/`Infinity`/`-Infinity`
constants.  Error strings are the CPython message classes without position
suffixes; the harness only tests them for the substrings "escape" and
"Invalid", on which the model agrees with CPython. -/

/-- JSON inter-token whitespace (space, TAB, LF, CR). -/
def json_ws (c : Char) : Bool :=
  c.toNat = 32 || c.toNat = 9 || c.toNat = 10 || c.toNat = 13

/-- Skip JSON whitespace. -/
def skip_json_ws (l : List Char) : List Char := l.dropWhile json_ws

/-- Hex digit value. -/
def hex_val (c : Char) : Option Nat :=
  if c.isDigit then some (c.toNat - 48)
  else if 97 ≤ c.toNat && c.toNat ≤ 102 then some (c.toNat - 87)
  else if 65 ≤ c.toNat && c.toNat ≤ 70 then some (c.toNat - 55)
  else none

/-- JSON string body parser (input starts after the opening quote). -/
def json_parse_string : Nat → List Char → Except String (String × List Char)
  | 0, _ => .error ("Unterminated string starting at")
  | _ + 1, [] => .error ("Unterminated string starting at")
  | fuel + 1, c :: rest =>
    if c = cDQ then .ok ("", rest)
    else if c = cBS then
      match rest with
      | [] => .error ("Unterminated string starting at")
      | e :: rest2 =>
        if e = cDQ || e = cBS || e = '/' then
          (json_parse_string fuel rest2).map (fun (s, r) => (String.mk (e :: s.data), r))
        else if e = 'b' then
          (json_parse_string fuel rest2).map (fun (s, r) => (String.mk (Char.ofNat 8 :: s.data), r))
        else if e = 'f' then
          (json_parse_string fuel rest2).map (fun (s, r) => (String.mk (Char.ofNat 12 :: s.data), r))
        else if e = 'n' then
          (json_parse_string fuel rest2).map (fun (s, r) => (String.mk (cNL :: s.data), r))
        else if e = 'r' then
          (json_parse_string fuel rest2).map (fun (s, r) => (String.mk (Char.ofNat 13 :: s.data), r))
        else if e = 't' then
          (json_parse_string fuel rest2).map (fun (s, r) => (String.mk (Char.ofNat 9 :: s.data), r))
        else if e = 'u' then
          match rest2 with
          | h1 :: h2 :: h3 :: h4 :: rest3 =>
            match hex_val h1, hex_val h2, hex_val h3, hex_val h4 with
            | some a, some b, some c2, some d =>
              (json_parse_string fuel rest3).map
                (fun (s, r) => (String.mk (Char.ofNat (((a * 16 + b) * 16 + c2) * 16 + d) :: s.data), r))
            | _, _, _, _ => .error ("Invalid " ++ String.mk [cBS] ++ "uXXXX escape")
          | _ => .error ("Invalid " ++ String.mk [cBS] ++ "uXXXX escape")
        else .error ("Invalid " ++ String.mk [cBS] ++ "escape")
    else if c.toNat < 32 then .error ("Invalid control character")
    else (json_parse_string fuel rest).map (fun (s, r) => (String.mk (c :: s.data), r))

/-- Strict JSON number parser (RFC 8259 grammar; exact rational value). -/
def json_parse_number (l : List Char) : Except String (Json × List Char) :=
  let (neg, l1) :=
    match l with
    | '-' :: r => (true, r)
    | _ => (false, l)
  let d1 :=
    match l1 with
    | '0' :: _ => ['0']
    | _ => l1.takeWhile Char.isDigit
  if d1.isEmpty then .error ("Expecting value")
  else
    let r1 := l1.drop d1.length
    let (d2, r2) :=
      match r1 with
      | '.' :: rr =>
        let d := rr.takeWhile Char.isDigit
        if d.isEmpty then (([] : List Char), r1) else (d, rr.drop d.length)
      | _ => ([], r1)
    let (ex, r3) :=
      match r2 with
      | e :: rr =>
        if e = 'e' || e = 'E' then
          match rr with
          | '-' :: rr2 =>
            let d := rr2.takeWhile Char.isDigit
            if d.isEmpty then ((0 : ℤ), r2) else (-(lc_nat_of_digits d : ℤ), rr2.drop d.length)
          | '+' :: rr2 =>
            let d := rr2.takeWhile Char.isDigit
            if d.isEmpty then ((0 : ℤ), r2) else ((lc_nat_of_digits d : ℤ), rr2.drop d.length)
          | _ =>
            let d := rr.takeWhile Char.isDigit
            if d.isEmpty then ((0 : ℤ), r2) else ((lc_nat_of_digits d : ℤ), rr.drop d.length)
        else ((0 : ℤ), r2)
      | _ => ((0 : ℤ), r2)
    let mant : ℚ := (lc_nat_of_digits (d1 ++ d2) : ℚ) / (10 : ℚ) ^ d2.length
    let q := (if neg then -mant else mant) * qpow10 ex
    .ok (.num (.finite q), r3)

mutual

/-- JSON value parser (fuel-based; fuel `2·length+4` always suffices). -/
def json_parse_value : Nat → List Char → Except String (Json × List Char)
  | 0, _ => .error ("Expecting value")
  | fuel + 1, l =>
    match l with
    | [] => .error ("Expecting value")
    | c :: rest =>
      if c = cLB then json_parse_obj fuel (skip_json_ws rest) true []
      else if c = cLS then json_parse_arr fuel (skip_json_ws rest) true []
      else if c = cDQ then (json_parse_string (rest.length + 1) rest).map (fun (s, r) => (.str s, r))
      else if lc_starts l (("true").data) then .ok (.bool true, l.drop 4)
      else if lc_starts l (("false").data) then .ok (.bool false, l.drop 5)
      else if lc_starts l (("null").data) then .ok (.null, l.drop 4)
      else if lc_starts l (("NaN").data) then .ok (.num .nan, l.drop 3)
      else if lc_starts l (("Infinity").data) then .ok (.num .inf, l.drop 8)
      else if lc_starts l (("-Infinity").data) then .ok (.num .ninf, l.drop 9)
      else json_parse_number l

/-- JSON array elements (`first` true only before the first element, where `]`
closes an empty array; a comma must be followed by a value, as in CPython). -/
def json_parse_arr : Nat → List Char → Bool → List Json → Except String (Json × List Char)
  | 0, _, _, _ => .error ("Expecting value")
  | fuel + 1, l, first, acc =>
    match l with
    | c :: rest =>
      if first && c = cRS then .ok (.arr acc.reverse, rest)
      else
        match json_parse_value fuel l with
        | .error e => .error e
        | .ok (v, r) =>
          match skip_json_ws r with
          | c2 :: r2 =>
            if c2 = cRS then .ok (.arr (v :: acc).reverse, r2)
            else if c2 = ',' then json_parse_arr fuel (skip_json_ws r2) false (v :: acc)
            else .error ("Expecting comma delimiter")
          | [] => .error ("Expecting comma delimiter")
    | [] => .error ("Expecting value")

/-- JSON object members (`first` true only before the first member; after a
comma a property name is mandatory; duplicate keys overwrite, as in CPython). -/
def json_parse_obj : Nat → List Char → Bool → PyDict → Except String (Json × List Char)
  | 0, _, _, _ => .error ("Expecting property name enclosed in double quotes")
  | fuel + 1, l, first, acc =>
    match l with
    | c :: rest =>
      if first && c = cRB then .ok (.obj acc, rest)
      else if c = cDQ then
        match json_parse_string (rest.length + 1) rest with
        | .error e => .error e
        | .ok (key, r) =>
          match skip_json_ws r with
          | c2 :: r2 =>
            if c2 = ':' then
              match json_parse_value fuel (skip_json_ws r2) with
              | .error e => .error e
              | .ok (v, r3) =>
                match skip_json_ws r3 with
                | c3 :: r4 =>
                  if c3 = cRB then .ok (.obj (dict_set acc key v), r4)
                  else if c3 = ',' then
                    json_parse_obj fuel (skip_json_ws r4) false (dict_set acc key v)
                  else .error ("Expecting comma delimiter")
                | [] => .error ("Expecting comma delimiter")
            else .error ("Expecting colon delimiter")
          | [] => .error ("Expecting colon delimiter")
      else .error ("Expecting property name enclosed in double quotes")
    | [] => .error ("Expecting property name enclosed in double quotes")

end

/-- Model of `json.loads`: parse one value, then require only whitespace after. -/
def json_loads (s : String) : Except String Json :=
  let l := skip_json_ws s.data
  match json_parse_value (2 * l.length + 4) l with
  | .error e => .error e
  | .ok (v, rest) => if (skip_json_ws rest).isEmpty then .ok v else .error ("Extra data")

/-! ### Value Normalizer (`normalize_value`, eval_metrics_harness.py lines 577-591) -/

/-- Python `v is None` on a parsed value. -/
def json_is_null : Json → Bool
  | .null => true
  | _ => false

/-- Remove every comma (Python `s.replace(",", "")`). -/
def lc_remove_commas (l : List Char) : List Char := l.filter (fun c => !(c = ','))

/-- `normalize_value(val)`: convert an arbitrary scalar to float-or-absent.
`None` and non-scalars give `none`; numbers pass through unless NaN (booleans
count as numbers, as in Python); strings are stripped and lower-cased, the
absence sentinels give `none`, then commas are removed, trailing `x`/`X`/`%`
stripped, and the remainder parsed as a float (`none` on `ValueError`). -/
def normalize_value : Json → Option PyFloat
  | .null => none
  | .bool b => some (.finite (if b then 1 else 0))
  | .num x => if pyf_is_nan x then none else some x
  | .str v =>
    let s := py_strip (py_lower v)
    if s = "" || s = "n/a" || s = "na" || s = "null" || s = "none" then none
    else py_float_of_string (String.mk (lc_strip (lc_rstrip_set ([ 'x', 'X', '%' ]) (lc_remove_commas s.data))))
  | .arr _ => none
  | .obj _ => none

/-! ### Metric Canonicalizer (lines 595-677) -/

/-- `CANONICAL_KEYS` (lines 595-599). -/
def CANONICAL_KEYS : List String :=
  [ "irr", "moic", "dpi", "tvpi",
    "current_yield", "income_distribution_rate", "gross_annualized_debt_itd_portfolio_yield",
    "total_distributions", "unrealized_value", "closing_date_dec_3_month", "yield", "ytd_whcm", "gmv" ]

/-- `OTHER_LABEL_TO_CANONICAL` (lines 600-624). -/
def OTHER_LABEL_TO_CANONICAL : List (String × String) :=
  [ ("current yield", "current_yield"),
    ("current_yield", "current_yield"),
    ("income distribution rate", "income_distribution_rate"),
    ("income_distribution_rate", "income_distribution_rate"),
    ("distribution rate", "income_distribution_rate"),
    ("gross annualized debt itd portfolio yield", "gross_annualized_debt_itd_portfolio_yield"),
    ("gross_annualized_debt_itd_portfolio_yield", "gross_annualized_debt_itd_portfolio_yield"),
    ("portfolio yield", "gross_annualized_debt_itd_portfolio_yield"),
    ("annualized debt portfolio yield", "gross_annualized_debt_itd_portfolio_yield"),
    ("total distributions", "total_distributions"),
    ("total_distributions", "total_distributions"),
    ("unrealized value", "unrealized_value"),
    ("unrealized_value", "unrealized_value"),
    ("closing date dec 3 month", "closing_date_dec_3_month"),
    ("closing_date_dec_3_month", "closing_date_dec_3_month"),
    ("yield", "yield"),
    ("ytd whcm", "ytd_whcm"),
    ("ytd_whcm", "ytd_whcm"),
    ("ytd whc m", "ytd_whcm"),
    ("gmv", "gmv"),
    ("spread", "yield") ]

/-- Lookup in `OTHER_LABEL_TO_CANONICAL` (`dict.get`). -/
def other_label_lookup : List (String × String) → String → Option String
  | [], _ => none
  | (k', v) :: rest, k => if k' = k then some v else other_label_lookup rest k

/-- `canonicalize_label(label)` (lines 627-632): lower-case, replace every
character that is neither word-like (`\w`: alphanumeric or underscore) nor
whitespace by a space, collapse whitespace runs. -/
def canonicalize_label (label : String) : String :=
  if py_strip label = "" then ""
  else
    let s := (lc_lower label.data).map
      (fun c => if c.isAlphanum || c = '_' || py_is_space c then c else ' ')
    String.mk (List.intercalate ([ ' ' ]) (lc_split_ws s))

/-- `_normalize_label_for_lookup(label)` (lines 635-640): canonicalize then
replace spaces by underscores. -/
def normalize_label_for_lookup (label : String) : String :=
  let c := canonicalize_label label
  if c = "" then ""
  else String.mk (c.data.map (fun ch => if ch = ' ' then '_' else ch))

/-- Python `str(v)` for a parsed value.  Used only where the harness stringifies
an `other_metric_label`; float/container renderings are abbreviated (only the
label-table lookup of the result is observed, and every table key is
alphabetic, so the abbreviation is observationally equivalent). -/
def py_str : Json → String
  | .null => "None"
  | .bool true => "True"
  | .bool false => "False"
  | .num (.finite q) => toString q
  | .num .inf => "inf"
  | .num .ninf => "-inf"
  | .num .nan => "nan"
  | .str s => s
  | .arr _ => "[...]"
  | .obj _ => String.mk [ cLB, cRB ]

/-- The canonical prediction dict: canonical key to float-or-absent. -/
abbrev CanonDict := List (String × Option PyFloat)

/-- `out.get(k)` on the canonical dict (missing and `None` coincide). -/
def canon_get : CanonDict → String → Option PyFloat
  | [], _ => none
  | (k', v) :: rest, k => if k' = k then v else canon_get rest k

/-- `out[k] = v` on the canonical dict. -/
def canon_set : CanonDict → String → Option PyFloat → CanonDict
  | [], k, v => [(k, v)]
  | (k', v') :: rest, k, v =>
    if k' = k then (k', v) :: rest else (k', v') :: canon_set rest k v

/-- `{k: None for k in CANONICAL_KEYS}`. -/
def canon_init : CanonDict := CANONICAL_KEYS.map (fun k => (k, none))

/-- Python `a or b` on parsed values (returns `a` when truthy, else `b`). -/
def json_py_or (a b : Json) : Json := if py_truthy a then a else b

/-- The new-schema named fields loop of `normalize_prediction` (lines 657-661). -/
def NEW_SCHEMA_NAMED_KEYS : List String :=
  [ "current_yield", "income_distribution_rate", "gross_annualized_debt_itd_portfolio_yield",
    "total_distributions", "unrealized_value", "closing_date_dec_3_month", "yield", "ytd_whcm", "gmv" ]

/-- The `other_metric_label`/`other_metric_value` block of `normalize_prediction`
(lines 662-674). -/
def normalize_prediction_other (pred_json : List (String × Json)) (out : CanonDict) : CanonDict :=
  let ol := dict_get pred_json ("other_metric_label")
  let ov := dict_get pred_json ("other_metric_value")
  if !(json_is_null ol) && !(py_strip (py_str ol) = "") && !(json_is_null ov) then
    let norm_label := normalize_label_for_lookup (py_str ol)
    match other_label_lookup OTHER_LABEL_TO_CANONICAL norm_label with
    | some ck =>
      if canon_get out ck = none then canon_set out ck (normalize_value ov) else out
    | none =>
      let space_key := String.mk (norm_label.data.map (fun ch => if ch = '_' then ' ' else ch))
      match other_label_lookup OTHER_LABEL_TO_CANONICAL space_key with
      | some ck =>
        if canon_get out ck = none then canon_set out ck (normalize_value ov) else out
      | none => out
  else out

/-- `normalize_prediction(pred_json)` (lines 642-675): map raw model JSON (old
or new schema) to the canonical dict.  Core metrics use Python `or` (new key
when truthy, else old key); the named new-schema fields are copied when present
and non-null; an old-schema other-metric pair is routed through the label
table into its canonical key when that key is still unset. -/
def normalize_prediction (pred_json : List (String × Json)) : CanonDict :=
  if pred_json.isEmpty then canon_init
  else
    let o1 := canon_set canon_init ("irr")
      (normalize_value (json_py_or (dict_get pred_json ("irr")) (dict_get pred_json ("net_irr"))))
    let o2 := canon_set o1 ("moic")
      (normalize_value (json_py_or (dict_get pred_json ("moic")) (dict_get pred_json ("net_moic"))))
    let o3 := canon_set o2 ("dpi")
      (normalize_value (json_py_or (dict_get pred_json ("dpi")) (dict_get pred_json ("net_dpi"))))
    let o4 := canon_set o3 ("tvpi")
      (normalize_value (json_py_or (dict_get pred_json ("tvpi")) (dict_get pred_json ("net_tvpi"))))
    let o5 := NEW_SCHEMA_NAMED_KEYS.foldl
      (fun o k =>
        if dict_contains pred_json k && !(json_is_null (dict_get pred_json k)) then
          canon_set o k (normalize_value (dict_get pred_json k))
        else o) o4
    normalize_prediction_other pred_json o5

/-! ### Unit Reconciler (`unit_normalize_pred`, lines 689-721) -/

/-- The rate-like canonical metric kinds (line 700-701). -/
def RATE_METRICS : List String :=
  [ "irr", "current_yield", "income_distribution_rate", "gross_annualized_debt_itd_portfolio_yield",
    "yield", "ytd_whcm", "total_distributions", "unrealized_value", "closing_date_dec_3_month" ]

/-- The basis-point gate: `label_hint and ("bp" in label_hint.lower() or "bps" in
label_hint.lower())` (line 703). -/
def label_has_bp (label_hint : Option String) : Bool :=
  match label_hint with
  | none => false
  | some h =>
    !(h = "") && (py_contains (py_lower h) ("bp") || py_contains (py_lower h) ("bps"))

/-- `unit_normalize_pred(pred_val, gt_val, metric_kind, label_hint)`:
bps labels divide the prediction by 100 first; non-rate kinds then pass
through; for rate kinds a fraction against a percent ground truth is scaled
up, and a percent against a fraction ground truth is scaled down when that
reduces absolute error. -/
def unit_normalize_pred (pred_val gt_val : Option PyFloat) (metric_kind : String)
    (label_hint : Option String) : Option PyFloat :=
  match pred_val with
  | none => none
  | some p0 =>
    let p := if label_has_bp label_hint then pyf_div100 p0 else p0
    if !(RATE_METRICS.contains metric_kind) then some p
    else
      match gt_val with
      | none => some p
      | some g =>
        if pyf_gt (pyf_abs g) pyf_one && pyf_le (pyf_abs p) pyf_one then some (pyf_mul100 p)
        else if pyf_lt (pyf_abs g) pyf_one && pyf_gt (pyf_abs p) pyf_one then
          let pf := pyf_div100 p
          if pyf_lt (pyf_abs (pyf_sub g pf)) (pyf_abs (pyf_sub g p)) then some pf else some p
        else some p

/-! ### Liberal numeric extraction (`_RE_NUMERIC_IN_TEXT`, `_numbers_from_string`,
`extract_all_performance_numbers`, lines 728-781) -/

/-- First alternative of `_RE_NUMERIC_IN_TEXT`:
`-?\d+(?:,\d{3})*(?:\.\d+)?\s*[%x×]?` matched greedily at the head of the
input; returns the matched characters and the remainder. -/
def re_num_groups : List Char → List Char × List Char
  | ',' :: a :: b :: c :: rest =>
    if a.isDigit && b.isDigit && c.isDigit then
      let (more, r) := re_num_groups rest
      (',' :: a :: b :: c :: more, r)
    else ([], ',' :: a :: b :: c :: rest)
  | l => ([], l)

/-- Head match of the first alternative of the numeric-token pattern. -/
def re_num_alt1 (l : List Char) : Option (List Char × List Char) :=
  let (sign, l1) :=
    match l with
    | '-' :: r => (([ '-' ] : List Char), r)
    | _ => ([], l)
  let d1 := l1.takeWhile Char.isDigit
  if d1.isEmpty then none
  else
    let r1 := l1.drop d1.length
    let (groups, r2) := re_num_groups r1
    let (frac, r3) :=
      match r2 with
      | '.' :: rr =>
        let d := rr.takeWhile Char.isDigit
        if d.isEmpty then (([] : List Char), r2) else ('.' :: d, rr.drop d.length)
      | _ => ([], r2)
    let ws := r3.takeWhile py_is_space
    let r4 := r3.drop ws.length
    let (unit, r5) :=
      match r4 with
      | c :: rr => if c = '%' || c = 'x' || c = '×' then (([ c ] : List Char), rr) else ([], r4)
      | [] => ([], r4)
    some (sign ++ d1 ++ groups ++ frac ++ ws ++ unit, r5)

/-- Head match of the second alternative, `-?\d+\.\d+`. -/
def re_num_alt2 (l : List Char) : Option (List Char × List Char) :=
  let (sign, l1) :=
    match l with
    | '-' :: r => (([ '-' ] : List Char), r)
    | _ => ([], l)
  let d1 := l1.takeWhile Char.isDigit
  if d1.isEmpty then none
  else
    match l1.drop d1.length with
    | '.' :: rr =>
      let d2 := rr.takeWhile Char.isDigit
      if d2.isEmpty then none
      else some (sign ++ d1 ++ ('.' :: d2), rr.drop d2.length)
    | _ => none

/-- `finditer` scan: leftmost non-overlapping matches, first alternative
preferred, advancing one character on failure. -/
def re_num_scan_aux : Nat → List Char → List (List Char)
  | 0, _ => []
  | _, [] => []
  | fuel + 1, c :: cs =>
    match re_num_alt1 (c :: cs) with
    | some (m, rest) => m :: re_num_scan_aux fuel rest
    | none =>
      match re_num_alt2 (c :: cs) with
      | some (m, rest) => m :: re_num_scan_aux fuel rest
      | none => re_num_scan_aux fuel cs

/-- `_numbers_from_string(s)` (lines 734-750): every numeric token in the
string, cleaned (strip, trailing `%x×X` stripped, commas removed, strip) and
parsed as a float; unparseable tokens are skipped. -/
def numbers_from_string (s : String) : List PyFloat :=
  if s = "" then []
  else
    (re_num_scan_aux s.data.length s.data).filterMap
      (fun m =>
        let raw := lc_strip (lc_remove_commas (lc_rstrip_set ([ '%', 'x', '×', 'X' ]) (lc_strip m)))
        py_float_of_string (String.mk raw))

/-- The three top-level keys read by `extract_all_performance_numbers`. -/
def CORE_NUM_KEYS : List String := [ "net_irr", "net_moic", "net_dpi" ]

/-- The three free-text array fields scanned by `extract_all_performance_numbers`. -/
def FREE_TEXT_KEYS : List String := [ "investment_performance", "key_takeaways", "business_updates" ]

/-- One item of a free-text array: strings are scanned for numeric tokens,
non-NaN numbers (and booleans, numbers in Python) taken directly. -/
def numbers_from_item : Json → List PyFloat
  | .str s => numbers_from_string s
  | .num x => if pyf_is_nan x then [] else [x]
  | .bool b => [.finite (if b then 1 else 0)]
  | _ => []

/-- `extract_all_performance_numbers(data)` (lines 753-777): the top-level
`net_irr`/`net_moic`/`net_dpi` values (normalized, when present), then every
number found in the three free-text array fields. -/
def extract_all_performance_numbers (data : PyDict) : List PyFloat :=
  if data.isEmpty then []
  else
    let n1 := CORE_NUM_KEYS.foldl
      (fun acc k =>
        match normalize_value (dict_get data k) with
        | some n => acc ++ [n]
        | none => acc) []
    FREE_TEXT_KEYS.foldl
      (fun acc k =>
        match dict_get data k with
        | .arr items => acc ++ (items.map numbers_from_item).flatten
        | _ => acc) n1

/-- `extract_numbers_from_raw_response(raw_response)` (lines 929-931). -/
def extract_numbers_from_raw_response (raw_response : String) : List PyFloat :=
  numbers_from_string raw_response

/-- The candidate numeric pool assembled by `evaluate_one` (lines 1185-1188):
numbers from the parsed data followed by numbers scanned from the raw
response text. -/
def evaluate_one_numbers (data : PyDict) (raw_response : String) : List PyFloat :=
  extract_all_performance_numbers data ++ extract_numbers_from_raw_response raw_response

/-! ### Scorer (`compute_score_from_gt_and_matches`, lines 1098-1116) -/

/-- The `overall_score` slot: the empty string (not applicable) or a float. -/
inductive ScoreValue where
  | blank
  | num (q : ℚ)
deriving DecidableEq

/-- Round half to even at integer precision (Python `round`). -/
def round_half_even (x : ℚ) : ℤ :=
  let f := Int.floor x
  let r := x - f
  if r < 1 / 2 then f
  else if 1 / 2 < r then f + 1
  else if f % 2 = 0 then f else f + 1

/-- Python `round(x, 4)` on the exact float model. -/
def py_round4 (q : ℚ) : ℚ := (round_half_even (q * 10000) : ℚ) / 10000

/-- The 9-tuple returned by `compute_score_from_gt_and_matches`, field names as
in the Python tuple. -/
structure ScoreOut where
  irr_in_scope : Bool
  moic_in_scope : Bool
  dpi_in_scope : Bool
  other_in_scope : Bool
  score_denom : ℤ
  score_num : ℤ
  overall_score : ScoreValue
  no_metrics_in_scope : Bool
  overall_score_is_na : ℤ
deriving DecidableEq

/-- `compute_score_from_gt_and_matches(gt, irr_match, moic_match, dpi_match,
other_match)`: in-scope flags come from the ground truth only; a zero
denominator yields the explicit not-applicable result, otherwise the rounded
ratio of matched in-scope metrics. -/
def compute_score_from_gt_and_matches (gt : PyDict)
    (irr_match moic_match dpi_match other_match : ℤ) : ScoreOut :=
  let irr_in := !(json_is_null (dict_get gt ("net_irr")))
  let moic_in := !(json_is_null (dict_get gt ("net_moic")))
  let dpi_in := !(json_is_null (dict_get gt ("net_dpi")))
  let other_in := !(json_is_null (dict_get gt ("other_metric_value")))
  let score_denom : ℤ :=
    (if irr_in then 1 else 0) + (if moic_in then 1 else 0) +
    (if dpi_in then 1 else 0) + (if other_in then 1 else 0)
  if score_denom = 0 then
    ⟨irr_in, moic_in, dpi_in, other_in, 0, 0, .blank, true, 1⟩
  else
    let score_num : ℤ :=
      (if irr_in then irr_match else 0) + (if moic_in then moic_match else 0) +
      (if dpi_in then dpi_match else 0) + (if other_in then other_match else 0)
    ⟨irr_in, moic_in, dpi_in, other_in, score_denom, score_num,
      .num (py_round4 ((score_num : ℚ) / (score_denom : ℚ))), false, 0⟩

/-! ### Document Matcher (`_normalize_for_match`, `_match_pdf_to_ground_truth`,
lines 1441-1481) -/

/-- `_normalize_for_match(s)`: lower-case, keep alphanumeric and whitespace
(others become spaces), collapse whitespace runs. -/
def normalize_for_match (s : String) : String :=
  let t := lc_strip ((lc_lower s.data).map (fun c => if c.isAlphanum || py_is_space c then c else ' '))
  String.mk (List.intercalate ([ ' ' ]) (lc_split_ws t))

/-- `gt_lookup.get(k)`. -/
def lookup_get : List (String × PyDict) → String → Option PyDict
  | [], _ => none
  | (k', v) :: rest, k => if k' = k then some v else lookup_get rest k

/-- Python truthiness of `Optional[dict]` (an empty dict is falsy). -/
def opt_dict_truthy : Option PyDict → Bool
  | none => false
  | some d => !d.isEmpty

/-- The entry loop of `_match_pdf_to_ground_truth` (lines 1460-1480): for each
ground-truth entry in source order, try normalized exact equality, then (when
the entry stem has length at least 3) substring containment on the lower-cased
key/stem, then the word test; the first entry on which any rule fires wins. -/
def match_pdf_loop (pdf_name_norm pdf_stem_norm pdf_lower pdf_norm : String) :
    List (String × String × PyDict) → Option PyDict
  | [] => none
  | (excel_key, excel_stem, metrics) :: rest =>
    let key_norm := normalize_for_match excel_key
    let stem_norm := normalize_for_match excel_stem
    if key_norm = pdf_name_norm || key_norm = pdf_stem_norm then some metrics
    else if stem_norm = pdf_name_norm || stem_norm = pdf_stem_norm then some metrics
    else if excel_stem.data.length < 3 then
      match_pdf_loop pdf_name_norm pdf_stem_norm pdf_lower pdf_norm rest
    else
      let key_lower := py_lower excel_key
      let stem_lower := py_lower excel_stem
      if py_contains pdf_lower stem_lower || py_contains stem_lower pdf_lower then some metrics
      else if py_contains pdf_lower key_lower || py_contains key_lower pdf_lower then some metrics
      else
        let excel_words := (lc_split_ws key_norm.data).filter (fun w => 3 ≤ w.length)
        if !excel_words.isEmpty && excel_words.all (fun w => lc_contains_sub pdf_norm.data w) then
          some metrics
        else match_pdf_loop pdf_name_norm pdf_stem_norm pdf_lower pdf_norm rest

/-- `_match_pdf_to_ground_truth(pdf_name, pdf_stem, gt_lookup, gtpdf_values)`:
exact dict lookup by name or stem first (Python `or`, so an empty dict value
is passed over), then the entry loop. -/
def match_pdf_to_ground_truth (pdf_name pdf_stem : String)
    (gt_lookup : List (String × PyDict))
    (gtpdf_values : List (String × String × PyDict)) : Option PyDict :=
  let a := lookup_get gt_lookup pdf_name
  let gt0 := if opt_dict_truthy a then a else lookup_get gt_lookup pdf_stem
  match gt0 with
  | some d => some d
  | none =>
    match_pdf_loop (normalize_for_match pdf_name) (normalize_for_match pdf_stem)
      (py_lower pdf_stem) (normalize_for_match pdf_stem) gtpdf_values

/-! ### Ground-Truth Loader layout detection
(`_cell_looks_like_metric_label`, `_cell_looks_like_value`, lines 204-230, and
the layout decision tree of `load_ground_truth_from_excel`, lines 451-574) -/

/-- A spreadsheet cell as seen through openpyxl: empty, a string, or a number.
A numeric cell carries its CPython `str()` rendering as data (the rendering is
never algorithmically relevant: it can contain neither a metric keyword nor an
identifier column name). -/
inductive Cell where
  | blank
  | str (s : String)
  | num (x : PyFloat) (rendered : String)
deriving DecidableEq

/-- Python `str(cell)` for a cell (`"None"` for the empty cell). -/
def cell_str : Cell → String
  | .blank => "None"
  | .str s => s
  | .num _ r => r

/-- `_cell_looks_like_metric_label(cell)` (lines 204-213). -/
def cell_looks_like_metric_label (cell : Cell) : Bool :=
  match cell with
  | .blank => false
  | c =>
    let s := py_upper (py_strip (cell_str c))
    !(s = "") &&
      (py_contains s ("MOIC") || py_contains s ("TVPI") || py_contains s ("IRR") || py_contains s ("DPI"))

/-- `_cell_looks_like_value(cell)` (lines 216-230): numbers qualify outright;
strings qualify when, after dropping every comma, percent sign and lower-case
`x`, they parse as a float. -/
def cell_looks_like_value (cell : Cell) : Bool :=
  match cell with
  | .blank => false
  | .num _ _ => true
  | .str v =>
    let s := py_strip v
    if s = "" || py_lower s = "n/a" || py_lower s = "na" || py_lower s = "null" || py_lower s = "none" then
      false
    else
      (py_float_of_string (String.mk (lc_strip (s.data.filter
        (fun c => !(c = ',' || c = '%' || c = 'x')))))).isSome

/-- First cell of a row (`rows[i][0] if rows[i] else None`). -/
def row_first : List Cell → Cell
  | [] => .blank
  | c :: _ => c

/-- The header list `[str(c).strip().lower() if c is not None else "" for c in rows[0]]`. -/
def header_of (row0 : List Cell) : List String :=
  row0.map (fun c => match c with | .blank => "" | c' => py_lower (py_strip (cell_str c')))

/-- The identifier column names probed in order (line 506). -/
def ID_COLS : List String := [ "pdf", "filename", "pdf_filename", "test_case_id", "name", "gtpdf" ]

/-- Is some identifier column name present in the header? -/
def has_id_col (header : List String) : Bool := ID_COLS.any (fun n => header.contains n)

/-- `_value_in_row(row)` (lines 547-549). -/
def value_in_row (row : List Cell) : Bool :=
  match row with
  | [] => false
  | c :: rest =>
    cell_looks_like_value c ||
      (match rest with
       | [] => false
       | d :: _ => cell_looks_like_value d)

/-- `_value_cells_in_row(row)` (lines 550-551). -/
def value_cells_in_row (row : List Cell) : ℕ :=
  row.countP cell_looks_like_value

/-- The layout chosen by `load_ground_truth_from_excel`; `config_error` carries
the observed header, which the raised `ValueError` embeds in its message. -/
inductive ExcelLayout where
  | multi_tab
  | no_rows
  | standard
  | alternating
  | transposed
  | config_error (header : List String)
deriving DecidableEq

/-- `row1_label` of the decision tree: `rows[1][0] if len(rows) > 1 and rows[1] else None`. -/
def row1_label_of (all : List (List Cell)) : Cell :=
  if 1 < all.length then row_first (all.getD 1 []) else .blank

/-- `max(len(r) for r in rows)`. -/
def n_cols_of (all : List (List Cell)) : ℕ :=
  all.foldl (fun m r => max m r.length) 0

/-- First probe (line 555): row 0 opens with a metric label and row 1 carries a
value -- the alternating label/value layout. -/
def alternating_probe (all : List (List Cell)) : Bool :=
  cell_looks_like_metric_label (row_first (all.getD 0 [])) && 1 < all.length &&
    value_in_row (all.getD 1 [])

/-- Second probe (line 559): row 1 opens with a metric label and row 2 carries a
value -- transposed when row 2 has two or more value cells, else alternating
under a header row. -/
def second_probe (all : List (List Cell)) : Bool :=
  cell_looks_like_metric_label (row1_label_of all) && 2 < all.length &&
    value_in_row (all.getD 2 [])

/-- Third probe (line 567): row 1 opens with a metric label and the sheet is
more than two columns wide -- transposed. -/
def third_probe (all : List (List Cell)) : Bool :=
  cell_looks_like_metric_label (row1_label_of all) && 2 < n_cols_of all

/-- The single-sheet decision tree of `load_ground_truth_from_excel`
(lines 501-574): empty sheet short-circuits; an identifier column selects the
standard layout; otherwise the alternating and transposed probes run in
source order, and when none fires a configuration error naming the observed
header is raised. -/
def single_sheet_layout (rows : List (List Cell)) : ExcelLayout :=
  match rows with
  | [] => .no_rows
  | row0 :: rest =>
    let all := row0 :: rest
    if has_id_col (header_of row0) then .standard
    else if alternating_probe all then .alternating
    else if second_probe all then
      (if 2 ≤ value_cells_in_row (all.getD 2 []) then .transposed else .alternating)
    else if third_probe all then .transposed
    else .config_error (header_of row0)

/-- The workbook-level dispatch of `load_ground_truth_from_excel`: two or more
sheets select the one-tab-per-document layout, else the single active sheet is
examined. -/
def load_ground_truth_from_excel_layout (sheets : List (List (List Cell))) : ExcelLayout :=
  if 2 ≤ sheets.length then .multi_tab
  else
    match sheets with
    | [] => .no_rows
    | s :: _ => single_sheet_layout s

/-! ### Structured-Response Repair & Extractor
(`_strip_json_prefixed_junk` lines 800-818, `_extract_first_json_object`
lines 821-848, `_try_parse_json` lines 851-859, `_repair_invalid_escapes`
lines 862-865, `_extract_partial_json` lines 868-884,
`extract_json_from_response` lines 887-926) -/

/-- The throwaway prefix lines dropped by `_strip_json_prefixed_junk`. -/
def JUNK_LINES : List String := [ "[json]", "json", "json:", "here is the json:", "here is the data:" ]

/-- The line loop of `_strip_json_prefixed_junk`: drop blank/label-only lines;
on a line opening with `json:` or a fenced-`json` marker, cut everything
through the word `json` plus colon and re-examine; stop at the first line of
content. -/
def junk_loop : Nat → List String → List String
  | 0, lines => lines
  | fuel + 1, lines =>
    match lines with
    | [] => []
    | l0 :: rest =>
      let line := py_lower (py_strip l0)
      if line = "" || JUNK_LINES.contains line then junk_loop fuel rest
      else if py_starts_with line ("json:") || py_starts_with line ("```json") then
        let stripped := py_strip l0
        match lc_find_sub (lc_lower stripped.data) (("json").data) with
        | some i =>
          let newl := py_strip (String.mk (stripped.data.drop (i + 4)))
          if newl = "" then junk_loop fuel rest
          else junk_loop fuel (newl :: rest)
        | none => l0 :: rest
      else l0 :: rest

/-- `_strip_json_prefixed_junk(text)`. -/
def strip_json_prefixed_junk (text : String) : String :=
  if text = "" then text
  else
    let lines := (lc_split_char cNL text.data).map String.mk
    py_strip (String.intercalate "\n" (junk_loop (text.data.length + lines.length + 1) lines))

/-- The brace-depth scan of `_extract_first_json_object`: walk from the first
opening brace tracking depth; the prefix through the brace that returns the
depth to zero is the candidate. -/
def brace_scan : List Char → ℕ → List Char → Option String
  | [], _, _ => none
  | c :: rest, depth, acc =>
    if c = cLB then brace_scan rest (depth + 1) (acc ++ [c])
    else if c = cRB then
      if depth = 1 then some (String.mk (acc ++ [c]))
      else brace_scan rest (depth - 1) (acc ++ [c])
    else brace_scan rest depth (acc ++ [c])

/-- `_extract_first_json_object(text)`: strip, cut out a fenced code block when
present, drop junk prefix lines, then return the first brace-balanced
substring (or `none` when no opening brace or no balancing close exists). -/
def extract_first_json_object (text0 : String) : Option String :=
  let text1 := py_strip text0
  let text2 :=
    if py_contains (py_lower text1) ("```json") then
      let start := (lc_find_sub (lc_lower text1.data) (("```json").data)).getD 0 + 7
      let rest := text1.data.drop start
      match lc_find_sub rest (("```").data) with
      | some e => py_strip (String.mk (rest.take e))
      | none => py_strip (String.mk rest)
    else if py_contains text1 ("```") then
      let start := ((lc_find_sub text1.data (("```").data)).getD 0) + 3
      let rest := text1.data.drop start
      match lc_find_sub rest (("```").data) with
      | some e => py_strip (String.mk (rest.take e))
      | none => py_strip (String.mk rest)
    else text1
  let text3 := strip_json_prefixed_junk text2
  match lc_find_sub text3.data ([ cLB ]) with
  | none => none
  | some start => brace_scan (text3.data.drop start) 0 []

/-- `_try_parse_json(snippet)`: parse as JSON, requiring a top-level object;
scalars and arrays are reported as failures naming the Python type. -/
def try_parse_json (snippet : String) : Except String PyDict :=
  match json_loads snippet with
  | .error e => .error e
  | .ok (.obj fields) => .ok fields
  | .ok v => .error ("Parsed value is not a dict: " ++ py_type_name v)

/-- Four valid-hex lookahead for the `\\u` case of `_repair_invalid_escapes`. -/
def hex4 (l : List Char) : Bool :=
  match l with
  | a :: b :: c :: d :: _ => (hex_val a).isSome && (hex_val b).isSome && (hex_val c).isSome && (hex_val d).isSome
  | _ => false

/-- `_repair_invalid_escapes(snippet)`: the substitution
`\\(?!["\\/bfnrt]|u[0-9a-fA-F]{4})(.)` → `\1`, scanned left to right as
`re.sub` does (a backslash before a valid escape, a newline, or at the end of
input is kept; otherwise the backslash is dropped and the following character
kept, scanning resuming after it). -/
def repair_invalid_escapes_aux : Nat → List Char → List Char
  | 0, l => l
  | _ + 1, [] => []
  | fuel + 1, c :: rest =>
    if c = cBS then
      match rest with
      | [] => [c]
      | e :: rest2 =>
        if e = cDQ || e = cBS || e = '/' || e = 'b' || e = 'f' || e = 'n' || e = 'r' || e = 't' then
          c :: repair_invalid_escapes_aux fuel rest
        else if e = 'u' && hex4 rest2 then
          c :: repair_invalid_escapes_aux fuel rest
        else if e = cNL then
          c :: repair_invalid_escapes_aux fuel rest
        else
          e :: repair_invalid_escapes_aux fuel rest2
    else c :: repair_invalid_escapes_aux fuel rest

/-- String wrapper for `_repair_invalid_escapes`. -/
def repair_invalid_escapes (s : String) : String :=
  String.mk (repair_invalid_escapes_aux s.data.length s.data)

/-- One pass of `re.sub(",\\s*<close>", "<close>", ...)`: a comma followed by
whitespace and the closing character collapses to the closing character. -/
def sub_comma_close (close : Char) : Nat → List Char → List Char
  | 0, l => l
  | _ + 1, [] => []
  | fuel + 1, c :: rest =>
    if c = ',' then
      let ws := rest.takeWhile py_is_space
      let r2 := rest.drop ws.length
      match r2 with
      | d :: r3 =>
        if d = close then close :: sub_comma_close close fuel r3
        else c :: sub_comma_close close fuel rest
      | [] => c :: sub_comma_close close fuel rest
    else c :: sub_comma_close close fuel rest

/-- The trailing-comma repair of `extract_json_from_response` (lines 910-911):
first before closing braces, then before closing brackets. -/
def fix_trailing_commas (s : String) : String :=
  let f1 := sub_comma_close cRB s.data.length s.data
  String.mk (sub_comma_close cRS f1.length f1)

/-- Head match of `"<key>"\s*:\s*(-?\d+\.?\d*|null)` at the start of `l`;
`some (some q)` for a number, `some none` for `null`. -/
def match_key_num_at (key : List Char) (l : List Char) : Option (Option ℚ) :=
  if !lc_starts l (cDQ :: (key ++ [cDQ])) then none
  else
    let r1 := (l.drop (key.length + 2)).dropWhile py_is_space
    match r1 with
    | ':' :: r3 =>
      let r4 := r3.dropWhile py_is_space
      let (neg, r5) :=
        match r4 with
        | '-' :: rr => (true, rr)
        | _ => (false, r4)
      let d1 := r5.takeWhile Char.isDigit
      if d1.isEmpty then
        if !neg && lc_starts r4 (("null").data) then some none else none
      else
        let r6 := r5.drop d1.length
        let d2 :=
          match r6 with
          | '.' :: rr => rr.takeWhile Char.isDigit
          | _ => []
        let q : ℚ := (lc_nat_of_digits (d1 ++ d2) : ℚ) / (10 : ℚ) ^ d2.length
        some (some (if neg then -q else q))
    | _ => none

/-- `re.search` for the partial-metric pattern: leftmost match wins. -/
def search_key_num (key : List Char) : Nat → List Char → Option (Option ℚ)
  | 0, _ => none
  | fuel + 1, l =>
    match match_key_num_at key l with
    | some v => some v
    | none =>
      match l with
      | [] => none
      | _ :: rest => search_key_num key fuel rest

/-- `_extract_partial_json(raw)`: regex-extract `net_irr`, `net_moic`,
`net_dpi` (number or `null`) from raw text of a truncated response. -/
def extract_partial_metrics (raw : String) : PyDict :=
  CORE_NUM_KEYS.foldl
    (fun out key =>
      match search_key_num key.data (raw.data.length + 1) raw.data with
      | some (some q) => dict_set out key (Json.num (.finite q))
      | some none => dict_set out key Json.null
      | none => out) []

/-- The gate `err and ("escape" in err.lower() or "Invalid" in err)` guarding
the escape repair (lines 903, 913). -/
def err_mentions_escape (err : String) : Bool :=
  !(err = "") && (py_contains (py_lower err) ("escape") || py_contains err ("Invalid"))

/-- `extract_json_from_response(content)` (lines 887-926): extract the first
brace-balanced candidate and parse it, repairing invalid escapes and trailing
commas on failure; with no candidate at all, fall back to regex extraction of
the three core metrics (the truncated-response result type); the final
fallback is an empty mapping with the first parse error. -/
def extract_json_from_response (content : String) : PyDict × Option String :=
  let raw := py_strip content
  match extract_first_json_object raw with
  | none =>
    let part := extract_partial_metrics raw
    if !part.isEmpty then (part, some ("Truncated JSON; extracted partial metrics"))
    else ([], some ("No JSON object found in response"))
  | some snippet =>
    match try_parse_json snippet with
    | .ok d => (d, none)
    | .error err =>
      let a2 :=
        if err_mentions_escape err then
          match try_parse_json (repair_invalid_escapes snippet) with
          | .ok d => some d
          | .error _ => none
        else none
      match a2 with
      | some d => (d, none)
      | none =>
        let fixed := fix_trailing_commas snippet
        match try_parse_json fixed with
        | .ok d => (d, none)
        | .error _ =>
          let a4 :=
            if err_mentions_escape err then
              match try_parse_json (repair_invalid_escapes fixed) with
              | .ok d => some d
              | .error _ => none
            else none
          match a4 with
          | some d => (d, none)
          | none => ([], some err)

/-! ### Specification-side definitions

Two claims describe an algorithm whose shape differs from the code; the
following definitions transcribe the claims' own words, for comparison with
the code-side definitions above. -/

/-- The candidate numeric pool as the specification words it: every numeric
field at the top level of the parsed data, every number inside any free-text
array field, and every number in the raw response text. -/
def spec_candidate_numbers (data : PyDict) (raw : String) : List PyFloat :=
  (data.filterMap (fun kv => match kv.2 with | Json.num x => some x | _ => none))
    ++ (data.map (fun kv =>
          match kv.2 with
          | Json.arr items =>
            (items.map (fun it => match it with | Json.str s => numbers_from_string s | _ => [])).flatten
          | _ => [])).flatten
    ++ numbers_from_string raw

/-- Specification rule (2): normalized exact equality between the candidate
(name or stem) and a ground-truth alias (id or stem). -/
def spec_rule_norm_eq (pdf_name_norm pdf_stem_norm : String) (e : String × String × PyDict) : Bool :=
  normalize_for_match e.1 = pdf_name_norm || normalize_for_match e.1 = pdf_stem_norm ||
  normalize_for_match e.2.1 = pdf_name_norm || normalize_for_match e.2.1 = pdf_stem_norm

/-- Specification rule (3): substring containment in either direction, the
shorter string at least 3 characters long. -/
def spec_rule_substring (pdf_lower : String) (e : String × String × PyDict) : Bool :=
  (3 ≤ min pdf_lower.data.length (py_lower e.2.1).data.length &&
    (py_contains pdf_lower (py_lower e.2.1) || py_contains (py_lower e.2.1) pdf_lower)) ||
  (3 ≤ min pdf_lower.data.length (py_lower e.1).data.length &&
    (py_contains pdf_lower (py_lower e.1) || py_contains (py_lower e.1) pdf_lower))

/-- Specification rule (4): every token of length at least 3 of the normalized
ground-truth alias is a member of the candidate's normalized token set. -/
def spec_rule_tokens (pdf_norm : String) (e : String × String × PyDict) : Bool :=
  let ws := (lc_split_ws (normalize_for_match e.1).data).filter (fun w => 3 ≤ w.length)
  !ws.isEmpty && ws.all (fun w => (lc_split_ws pdf_norm.data).contains w)

/-- The document matcher as the specification words it: the four rules applied
in global priority order, each scanning all entries in source order before the
next rule is tried. -/
def spec_match_pdf_to_ground_truth (pdf_name pdf_stem : String)
    (gt_lookup : List (String × PyDict))
    (gtpdf_values : List (String × String × PyDict)) : Option PyDict :=
  let a := lookup_get gt_lookup pdf_name
  let gt0 := if opt_dict_truthy a then a else lookup_get gt_lookup pdf_stem
  match gt0 with
  | some d => some d
  | none =>
    let pdf_name_norm := normalize_for_match pdf_name
    let pdf_stem_norm := normalize_for_match pdf_stem
    let pdf_lower := py_lower pdf_stem
    let pdf_norm := normalize_for_match pdf_stem
    match gtpdf_values.find? (spec_rule_norm_eq pdf_name_norm pdf_stem_norm) with
    | some e => some e.2.2
    | none =>
      match gtpdf_values.find? (spec_rule_substring pdf_lower) with
      | some e => some e.2.2
      | none =>
        match gtpdf_values.find? (spec_rule_tokens pdf_norm) with
        | some e => some e.2.2
        | none => none

/-- The per-entry disjunction the code's entry loop actually tests: normalized
exact equality, or (stem at least 3 characters long) lower-cased substring
containment either direction against stem or key, or the all-significant-words
substring test. -/
def entry_rules_fire (pdf_name_norm pdf_stem_norm pdf_lower pdf_norm : String)
    (e : String × String × PyDict) : Bool :=
  let key_norm := normalize_for_match e.1
  let stem_norm := normalize_for_match e.2.1
  (key_norm = pdf_name_norm || key_norm = pdf_stem_norm) ||
  (stem_norm = pdf_name_norm || stem_norm = pdf_stem_norm) ||
  (!(e.2.1.data.length < 3) &&
    ((py_contains pdf_lower (py_lower e.2.1) || py_contains (py_lower e.2.1) pdf_lower) ||
     (py_contains pdf_lower (py_lower e.1) || py_contains (py_lower e.1) pdf_lower) ||
     (let ws := (lc_split_ws key_norm.data).filter (fun w => 3 ≤ w.length)
      !ws.isEmpty && ws.all (fun w => lc_contains_sub pdf_norm.data w))))

/-- The code-side candidate pool, split as the amended claim describes it: the
three core top-level keys, in order. -/
def core_field_numbers (data : PyDict) : List PyFloat :=
  CORE_NUM_KEYS.filterMap (fun k => normalize_value (dict_get data k))

/-- The code-side candidate pool, split as the amended claim describes it: the
three named free-text array fields, in order. -/
def free_text_array_numbers (data : PyDict) : List PyFloat :=
  (FREE_TEXT_KEYS.map (fun k =>
    match dict_get data k with
    | Json.arr items => (items.map numbers_from_item).flatten
    | _ => [])).flatten

/-- Did a parse attempt succeed?  (Used to state that a repair attempt fails
without naming its error.) -/
def is_parse_ok (r : Except String PyDict) : Bool :=
  match r with
  | .ok _ => true
  | .error _ => false

/-! ## Theorems

Shared helper lemmas first, then one theorem per claim (with its witness or
counterexample where required). -/

/-- A successful `_try_parse_json` comes from a successful `json.loads`
returning a top-level object with exactly those fields. -/
theorem try_parse_json_ok_loads (t : String) (d : PyDict) (h : try_parse_json t = .ok d) :
    json_loads t = Except.ok (Json.obj d) := by
  unfold try_parse_json at h
  cases hl : json_loads t with
  | error e => rw [hl] at h; exact absurd h (by simp)
  | ok v => cases v <;> rw [hl] at h <;> simp_all

/-- Unrolling the accumulator of the core-keys fold of
`extract_all_performance_numbers`. -/
theorem foldl_core_append (data : PyDict) :
    ∀ (ks : List String) (acc : List PyFloat),
      ks.foldl (fun acc k =>
        match normalize_value (dict_get data k) with
        | some n => acc ++ [n]
        | none => acc) acc
      = acc ++ ks.filterMap (fun k => normalize_value (dict_get data k))
  | [], acc => by simp
  | k :: ks, acc => by
    cases h : normalize_value (dict_get data k) <;>
      simp [h, foldl_core_append data ks]

/-- Unrolling the accumulator of the free-text fold of
`extract_all_performance_numbers`. -/
theorem foldl_free_append (data : PyDict) :
    ∀ (ks : List String) (acc : List PyFloat),
      ks.foldl (fun acc k =>
        match dict_get data k with
        | Json.arr items => acc ++ (items.map numbers_from_item).flatten
        | _ => acc) acc
      = acc ++ (ks.map (fun k =>
          match dict_get data k with
          | Json.arr items => (items.map numbers_from_item).flatten
          | _ => [])).flatten
  | [], acc => by simp
  | k :: ks, acc => by
    cases h : dict_get data k <;>
      simp [h, foldl_free_append data ks]

/-- C2 (amended): the candidate numeric pool of `evaluate_one` decomposes as
the normalized values of the three top-level keys `net_irr`, `net_moic`,
`net_dpi`, then every number found in the three free-text array fields
`investment_performance`, `key_takeaways`, `business_updates`, then every
number the numeric-token pattern finds in the raw response text -- not all
top-level numeric fields, and not arbitrary array fields. -/
theorem c2_pool_decomposition (data : PyDict) (raw : String) :
    evaluate_one_numbers data raw =
      core_field_numbers data ++ free_text_array_numbers data ++ numbers_from_string raw := by
  by_cases hq : data.isEmpty
  · have hdata : data = [] := by
      cases data with
      | nil => rfl
      | cons a l => simp [List.isEmpty] at hq
    subst hdata
    simp [evaluate_one_numbers, extract_all_performance_numbers,
      extract_numbers_from_raw_response, core_field_numbers, free_text_array_numbers,
      CORE_NUM_KEYS, FREE_TEXT_KEYS, dict_get, normalize_value]
  · simp only [evaluate_one_numbers, extract_all_performance_numbers, hq,
      extract_numbers_from_raw_response, if_neg hq]
    rw [foldl_core_append data, foldl_free_append data]
    simp [core_field_numbers, free_text_array_numbers, List.append_assoc]

/-- C2 counterexample: a parsed mapping whose only content is the top-level
numeric field `tvpi` contributes nothing to the code's candidate pool, while
the claimed pool (every top-level numeric field) would contain it. -/
theorem c2_counterexample :
    evaluate_one_numbers [(("tvpi" : String), Json.num (.finite (5 / 2)))] ("") = []
    ∧ spec_candidate_numbers [(("tvpi" : String), Json.num (.finite (5 / 2)))] ("") =
        [.finite (5 / 2)]
    ∧ ¬(evaluate_one_numbers [(("tvpi" : String), Json.num (.finite (5 / 2)))] ("") =
        spec_candidate_numbers [(("tvpi" : String), Json.num (.finite (5 / 2)))] ("")) := by
  refine ⟨rfl, rfl, ?_⟩
  intro h
  rw [show evaluate_one_numbers [(("tvpi" : String), Json.num (.finite (5 / 2)))] ("") = [] from rfl,
    show spec_candidate_numbers [(("tvpi" : String), Json.num (.finite (5 / 2)))] ("") =
      [.finite (5 / 2)] from rfl] at h
  exact List.noConfusion h

/-- C3 (amended): unit reconciliation of a non-rate (multiple) metric kind --
`moic`, `dpi` or `tvpi` -- returns the predicted value unchanged whenever the
label hint carries no basis-point marker (in particular when there is no label
hint, as in every core-metric call); a hint containing `bp` divides the
prediction by 100 even for multiples. -/
theorem c3_multiples_unchanged (p g : Option PyFloat) (kind : String) (hint : Option String)
    (hkind : kind = "moic" ∨ kind = "dpi" ∨ kind = "tvpi")
    (hbp : label_has_bp hint = false) :
    unit_normalize_pred p g kind hint = p := by
  have hc : kind ∉ RATE_METRICS := by
    rcases hkind with h | h | h <;> subst h <;> decide
  cases p with
  | none => rfl
  | some p0 => simp [unit_normalize_pred, hbp, hc]

/-- C3 witness: reconciling a concrete `moic` prediction with no label hint
leaves it unchanged. -/
theorem c3_witness :
    unit_normalize_pred (some (.finite (12 / 10))) (some (.finite 2)) ("moic") none =
      some (.finite (12 / 10)) :=
  c3_multiples_unchanged _ _ _ _ (Or.inl rfl) rfl

/-- C3 counterexample: with a basis-point label hint, reconciling a `moic`
prediction rescales it by 1/100, so it is not returned unchanged. -/
theorem c3_counterexample :
    unit_normalize_pred (some (.finite 100)) (some (.finite 2)) ("moic") (some ("bps")) =
      some (.finite 1)
    ∧ ¬(unit_normalize_pred (some (.finite 100)) (some (.finite 2)) ("moic") (some ("bps")) =
        some (.finite 100)) := by
  have hbp : label_has_bp (some ("bps")) = true := rfl
  have hc : ("moic" : String) ∉ RATE_METRICS := by decide
  have hval : unit_normalize_pred (some (.finite 100)) (some (.finite 2)) ("moic")
      (some ("bps")) = some (.finite (100 / 100)) := by
    simp [unit_normalize_pred, hbp, hc, pyf_div100]
  rw [hval]
  constructor
  · norm_num
  · intro h
    rw [Option.some_inj] at h
    have : (100 : ℚ) / 100 = 100 := by injection h
    norm_num at this

/-- C6 (amended): `normalize_value` is total and returns a number or absent:
`None` and non-scalars map to absent; numeric input passes through unless NaN;
booleans count as numbers; strings are trimmed and lower-cased, the sentinels
`n/a`/`na`/`null`/`none`/empty map to absent, otherwise commas are removed,
trailing `%`/`x`/`X` (but not the multiplication sign `×`) are stripped and
the rest is parsed as a float, unparseable strings mapping to absent. -/
theorem c6_normalize_value_amended :
    (normalize_value Json.null = none)
    ∧ (∀ x : PyFloat, normalize_value (.num x) = if pyf_is_nan x then none else some x)
    ∧ (∀ b : Bool, normalize_value (.bool b) = some (.finite (if b then 1 else 0)))
    ∧ (∀ items : List Json, normalize_value (.arr items) = none)
    ∧ (∀ fields : List (String × Json), normalize_value (.obj fields) = none)
    ∧ (∀ v : String,
        (py_strip (py_lower v) = "" ∨ py_strip (py_lower v) = "n/a" ∨
         py_strip (py_lower v) = "na" ∨ py_strip (py_lower v) = "null" ∨
         py_strip (py_lower v) = "none") →
        normalize_value (.str v) = none)
    ∧ (∀ v : String,
        ¬(py_strip (py_lower v) = "" ∨ py_strip (py_lower v) = "n/a" ∨
          py_strip (py_lower v) = "na" ∨ py_strip (py_lower v) = "null" ∨
          py_strip (py_lower v) = "none") →
        normalize_value (.str v) =
          py_float_of_string (String.mk (lc_strip (lc_rstrip_set ([ 'x', 'X', '%' ])
            (lc_remove_commas (py_strip (py_lower v)).data))))) := by
  refine ⟨rfl, fun x => rfl, fun b => rfl, fun items => rfl, fun fields => rfl, ?_, ?_⟩
  · intro v hv
    rcases hv with h | h | h | h | h <;> simp [normalize_value, h]
  · intro v hv
    push_neg at hv
    obtain ⟨h1, h2, h3, h4, h5⟩ := hv
    simp [normalize_value, h1, h2, h3, h4, h5]

/-- C6 witness: a sentinel maps to absent, and a percent-suffixed numeric
string parses (the cleanup leaves `15.5`). -/
theorem c6_witness :
    normalize_value (.str ("  N/A ")) = none
    ∧ normalize_value (.str ("15.5%")) =
        py_float_of_string (String.mk (lc_strip (lc_rstrip_set ([ 'x', 'X', '%' ])
          (lc_remove_commas (py_strip (py_lower ("15.5%"))).data)))) := by
  constructor
  · exact c6_normalize_value_amended.2.2.2.2.2.1 ("  N/A ") (Or.inr (Or.inl rfl))
  · exact c6_normalize_value_amended.2.2.2.2.2.2 ("15.5%") (by intro h; rcases h with h | h | h | h | h <;> exact absurd h (by decide))

/-- C6 counterexample: the multiplication sign `×` is not stripped by the
value normalizer (only `%`, `x`, `X` are), so `"1.5×"` maps to absent instead
of 1.5. -/
theorem c6_counterexample :
    normalize_value (.str ("1.5×")) = none
    ∧ ¬(normalize_value (.str ("1.5×")) = some (.finite (15 / 10))) := by
  have h : normalize_value (.str ("1.5×")) = none := rfl
  exact ⟨h, by rw [h]; exact fun hh => Option.noConfusion hh⟩

/-- Setting a key leaves every other key's value unchanged. -/
theorem canon_get_set_ne (c : CanonDict) (k k' : String) (v : Option PyFloat)
    (h : ¬(k = k')) : canon_get (canon_set c k v) k' = canon_get c k' := by
  induction c with
  | nil => simp [canon_set, canon_get, h]
  | cons a rest ih =>
    obtain ⟨ka, va⟩ := a
    by_cases hk : ka = k
    · subst hk
      simp [canon_set, canon_get, h]
    · simp [canon_set, canon_get, hk, ih]

/-- Setting a key makes its value the set value. -/
theorem canon_get_set_self (c : CanonDict) (k : String) (v : Option PyFloat) :
    canon_get (canon_set c k v) k = v := by
  induction c with
  | nil => simp [canon_set, canon_get]
  | cons a rest ih =>
    obtain ⟨ka, va⟩ := a
    by_cases hk : ka = k
    · subst hk
      simp [canon_set, canon_get]
    · simp [canon_set, canon_get, hk, ih]

/-- Setting an already-present key leaves the key list unchanged. -/
theorem canon_set_keys_of_mem (c : CanonDict) (k : String) (v : Option PyFloat)
    (h : k ∈ c.map Prod.fst) : (canon_set c k v).map Prod.fst = c.map Prod.fst := by
  induction c with
  | nil => simp at h
  | cons a rest ih =>
    obtain ⟨ka, va⟩ := a
    by_cases hk : ka = k
    · subst hk
      simp [canon_set]
    · simp only [List.map_cons, List.mem_cons] at h
      rcases h with h | h
      · exact absurd h.symm hk
      · simp [canon_set, hk, ih h]

/-- The named-fields fold of `normalize_prediction` leaves the key list
unchanged when every key it may set is already present. -/
theorem named_fold_keys (pj : PyDict) :
    ∀ (ks : List String) (out : CanonDict), (∀ k ∈ ks, k ∈ out.map Prod.fst) →
      ((ks.foldl (fun o k =>
          if dict_contains pj k && !(json_is_null (dict_get pj k)) then
            canon_set o k (normalize_value (dict_get pj k))
          else o) out).map Prod.fst) = out.map Prod.fst
  | [], out, _ => rfl
  | k :: ks, out, h => by
    have hk : k ∈ out.map Prod.fst := h k (List.mem_cons_self k ks)
    by_cases hc : (dict_contains pj k && !(json_is_null (dict_get pj k))) = true
    · have hkeys := canon_set_keys_of_mem out k (normalize_value (dict_get pj k)) hk
      have hrest : ∀ k' ∈ ks, k' ∈ (canon_set out k (normalize_value (dict_get pj k))).map Prod.fst := by
        intro k' hk'
        rw [hkeys]
        exact h k' (List.mem_cons_of_mem k hk')
      simp only [List.foldl_cons, hc, if_true]
      rw [named_fold_keys pj ks _ hrest, hkeys]
    · simp only [List.foldl_cons, hc, if_false]
      exact named_fold_keys pj ks out (fun k' hk' => h k' (List.mem_cons_of_mem k hk'))

/-- A hit in the label table is one of the table's values. -/
theorem other_label_lookup_mem :
    ∀ (t : List (String × String)) (lbl ck : String),
      other_label_lookup t lbl = some ck → ck ∈ t.map Prod.snd
  | [], _, _, h => by simp [other_label_lookup] at h
  | (k', v) :: rest, lbl, ck, h => by
    by_cases hk : k' = lbl
    · simp [other_label_lookup, hk] at h
      simp [h]
    · simp only [other_label_lookup, hk, if_false] at h
      exact List.mem_cons_of_mem _ (other_label_lookup_mem rest lbl ck h)

/-- Every target of the label table is one of the named new-schema keys. -/
theorem other_label_targets_named :
    ∀ ck ∈ OTHER_LABEL_TO_CANONICAL.map Prod.snd, ck ∈ NEW_SCHEMA_NAMED_KEYS := by
  decide

/-- Every named new-schema key is canonical. -/
theorem named_keys_canonical : ∀ k ∈ NEW_SCHEMA_NAMED_KEYS, k ∈ CANONICAL_KEYS := by
  decide

/-- The other-metric block leaves the key list unchanged when the keys it may
set are already present. -/
theorem other_block_keys (pj : PyDict) (out : CanonDict)
    (hout : ∀ k ∈ NEW_SCHEMA_NAMED_KEYS, k ∈ out.map Prod.fst) :
    (normalize_prediction_other pj out).map Prod.fst = out.map Prod.fst := by
  unfold normalize_prediction_other
  by_cases hg : (!(json_is_null (dict_get pj ("other_metric_label"))) &&
      !(py_strip (py_str (dict_get pj ("other_metric_label"))) = "") &&
      !(json_is_null (dict_get pj ("other_metric_value")))) = true
  · simp only [hg, if_true]
    cases h1 : other_label_lookup OTHER_LABEL_TO_CANONICAL
        (normalize_label_for_lookup (py_str (dict_get pj ("other_metric_label")))) with
    | some ck =>
      have hmem : ck ∈ out.map Prod.fst :=
        hout ck (other_label_targets_named ck (other_label_lookup_mem _ _ _ h1))
      by_cases h2 : canon_get out ck = none
      · simp only [h2, if_true]
        exact canon_set_keys_of_mem out ck _ hmem
      · simp only [h2, if_false]
    | none =>
      simp only []
      cases h2 : other_label_lookup OTHER_LABEL_TO_CANONICAL
          (String.mk ((normalize_label_for_lookup
            (py_str (dict_get pj ("other_metric_label")))).data.map
            (fun ch => if ch = '_' then ' ' else ch))) with
      | some ck =>
        have hmem : ck ∈ out.map Prod.fst :=
          hout ck (other_label_targets_named ck (other_label_lookup_mem _ _ _ h2))
        by_cases h3 : canon_get out ck = none
        · simp only [h3, if_true]
          exact canon_set_keys_of_mem out ck _ hmem
        · simp only [h3, if_false]
      | none => rfl
  · simp only [hg]
    simp

/-- C9 (amended): for every raw model response mapping, the canonicalized
prediction carries exactly the fixed canonical metric vocabulary as its keys,
in order, and (by the result type) every value is a number or explicitly
absent, never a string; finiteness, however, is not guaranteed (see the
counterexample). -/
theorem c9_canonical_keys (pj : PyDict) :
    (normalize_prediction pj).map Prod.fst = CANONICAL_KEYS := by
  have hinit : canon_init.map Prod.fst = CANONICAL_KEYS := rfl
  by_cases hq : pj.isEmpty
  · simp [normalize_prediction, hq, hinit]
  · unfold normalize_prediction
    rw [if_neg hq]
    have h1 : (canon_set canon_init ("irr")
        (normalize_value (json_py_or (dict_get pj ("irr")) (dict_get pj ("net_irr"))))).map Prod.fst
        = CANONICAL_KEYS := by
      rw [canon_set_keys_of_mem _ _ _ (by rw [hinit]; decide), hinit]
    have h2 : ((canon_set (canon_set canon_init ("irr")
        (normalize_value (json_py_or (dict_get pj ("irr")) (dict_get pj ("net_irr"))))) ("moic")
        (normalize_value (json_py_or (dict_get pj ("moic")) (dict_get pj ("net_moic")))))).map Prod.fst
        = CANONICAL_KEYS := by
      rw [canon_set_keys_of_mem _ _ _ (by rw [h1]; decide), h1]
    have h3 : ((canon_set (canon_set (canon_set canon_init ("irr")
        (normalize_value (json_py_or (dict_get pj ("irr")) (dict_get pj ("net_irr"))))) ("moic")
        (normalize_value (json_py_or (dict_get pj ("moic")) (dict_get pj ("net_moic"))))) ("dpi")
        (normalize_value (json_py_or (dict_get pj ("dpi")) (dict_get pj ("net_dpi")))))).map Prod.fst
        = CANONICAL_KEYS := by
      rw [canon_set_keys_of_mem _ _ _ (by rw [h2]; decide), h2]
    have h4 : ((canon_set (canon_set (canon_set (canon_set canon_init ("irr")
        (normalize_value (json_py_or (dict_get pj ("irr")) (dict_get pj ("net_irr"))))) ("moic")
        (normalize_value (json_py_or (dict_get pj ("moic")) (dict_get pj ("net_moic"))))) ("dpi")
        (normalize_value (json_py_or (dict_get pj ("dpi")) (dict_get pj ("net_dpi"))))) ("tvpi")
        (normalize_value (json_py_or (dict_get pj ("tvpi")) (dict_get pj ("net_tvpi")))))).map Prod.fst
        = CANONICAL_KEYS := by
      rw [canon_set_keys_of_mem _ _ _ (by rw [h3]; decide), h3]
    have h5 := named_fold_keys pj NEW_SCHEMA_NAMED_KEYS _
      (by intro k hk; rw [h4]; exact named_keys_canonical k hk)
    rw [other_block_keys pj _ (by intro k hk; rw [h5, h4]; exact named_keys_canonical k hk),
      h5, h4]

/-- C9 counterexample: the parsed mapping `irr: Infinity` (accepted by the
JSON reader) canonicalizes to an infinite -- not finite -- value under the
`irr` key, so the invariant "every value is a finite number or absent" fails;
only "number or absent, never a string" holds. -/
theorem c9_counterexample :
    canon_get (normalize_prediction [(("irr" : String), Json.num PyFloat.inf)]) ("irr") =
      some PyFloat.inf
    ∧ pyf_is_finite PyFloat.inf = false := ⟨rfl, rfl⟩

/-- The named-fields fold does not touch a key outside its key list. -/
theorem named_fold_get (pj : PyDict) (nk : String) :
    ∀ (ks : List String), nk ∉ ks → ∀ (out : CanonDict),
      canon_get (ks.foldl (fun o k =>
          if dict_contains pj k && !(json_is_null (dict_get pj k)) then
            canon_set o k (normalize_value (dict_get pj k))
          else o) out) nk = canon_get out nk
  | [], _, out => rfl
  | k :: ks, h, out => by
    have hk : ¬(k = nk) := fun hh => h (hh ▸ List.mem_cons_self k ks)
    have hks : nk ∉ ks := fun hh => h (List.mem_cons_of_mem k hh)
    by_cases hc : (dict_contains pj k && !(json_is_null (dict_get pj k))) = true
    · simp only [List.foldl_cons, hc, if_true]
      rw [named_fold_get pj nk ks hks, canon_get_set_ne _ _ _ _ hk]
    · simp only [List.foldl_cons, hc, if_false]
      exact named_fold_get pj nk ks hks out

/-- The other-metric block does not touch a key outside the named new-schema
keys (its targets all come from the label table). -/
theorem other_block_get (pj : PyDict) (out : CanonDict) (nk : String)
    (hnk : nk ∉ NEW_SCHEMA_NAMED_KEYS) :
    canon_get (normalize_prediction_other pj out) nk = canon_get out nk := by
  unfold normalize_prediction_other
  by_cases hg : (!(json_is_null (dict_get pj ("other_metric_label"))) &&
      !(py_strip (py_str (dict_get pj ("other_metric_label"))) = "") &&
      !(json_is_null (dict_get pj ("other_metric_value")))) = true
  · simp only [hg, if_true]
    cases h1 : other_label_lookup OTHER_LABEL_TO_CANONICAL
        (normalize_label_for_lookup (py_str (dict_get pj ("other_metric_label")))) with
    | some ck =>
      have hne : ¬(ck = nk) := fun hh =>
        hnk (hh ▸ other_label_targets_named ck (other_label_lookup_mem _ _ _ h1))
      by_cases h2 : canon_get out ck = none
      · simp only [h2, if_true]
        exact canon_get_set_ne _ _ _ _ hne
      · simp only [h2, if_false]
    | none =>
      simp only []
      cases h2 : other_label_lookup OTHER_LABEL_TO_CANONICAL
          (String.mk ((normalize_label_for_lookup
            (py_str (dict_get pj ("other_metric_label")))).data.map
            (fun ch => if ch = '_' then ' ' else ch))) with
      | some ck =>
        have hne : ¬(ck = nk) := fun hh =>
          hnk (hh ▸ other_label_targets_named ck (other_label_lookup_mem _ _ _ h2))
        by_cases h3 : canon_get out ck = none
        · simp only [h3, if_true]
          exact canon_get_set_ne _ _ _ _ hne
        · simp only [h3, if_false]
      | none => rfl
  · simp only [hg]
    simp

/-- The canonical value of each core metric is the normalization of the Python
`or` of the new-schema and old-schema keys. -/
theorem core_key_value (pj : PyDict) (nk ok_ : String)
    (hp : (nk, ok_) ∈ [(("irr" : String), ("net_irr" : String)), ("moic", "net_moic"),
      ("dpi", "net_dpi"), ("tvpi", "net_tvpi")]) :
    canon_get (normalize_prediction pj) nk =
      normalize_value (json_py_or (dict_get pj nk) (dict_get pj ok_)) := by
  by_cases hq : pj.isEmpty
  · have hpj : pj = [] := by
      cases pj with
      | nil => rfl
      | cons a l => simp [List.isEmpty] at hq
    subst hpj
    fin_cases hp <;> rfl
  · unfold normalize_prediction
    rw [if_neg hq]
    fin_cases hp
    · rw [other_block_get _ _ _ (by decide), named_fold_get _ _ _ (by decide),
        canon_get_set_ne _ _ _ _ (by decide : ¬(("tvpi" : String) = "irr")),
        canon_get_set_ne _ _ _ _ (by decide : ¬(("dpi" : String) = "irr")),
        canon_get_set_ne _ _ _ _ (by decide : ¬(("moic" : String) = "irr")),
        canon_get_set_self]
    · rw [other_block_get _ _ _ (by decide), named_fold_get _ _ _ (by decide),
        canon_get_set_ne _ _ _ _ (by decide : ¬(("tvpi" : String) = "moic")),
        canon_get_set_ne _ _ _ _ (by decide : ¬(("dpi" : String) = "moic")),
        canon_get_set_self]
    · rw [other_block_get _ _ _ (by decide), named_fold_get _ _ _ (by decide),
        canon_get_set_ne _ _ _ _ (by decide : ¬(("tvpi" : String) = "dpi")),
        canon_get_set_self]
    · rw [other_block_get _ _ _ (by decide), named_fold_get _ _ _ (by decide),
        canon_get_set_self]

/-- C7 (amended): for each core metric, canonicalization reads the new-schema
bare key when its value is truthy (present, non-null, non-zero, non-empty) and
otherwise falls back to the old-schema `net_`-prefixed key -- Python `or`
semantics, not presence: a new-schema value of `0` or `null` loses to the old
key even though both keys are present. -/
theorem c7_core_schema_precedence (pj : PyDict) (nk ok_ : String)
    (hp : (nk, ok_) ∈ [(("irr" : String), ("net_irr" : String)), ("moic", "net_moic"),
      ("dpi", "net_dpi"), ("tvpi", "net_tvpi")]) :
    (py_truthy (dict_get pj nk) = true →
      canon_get (normalize_prediction pj) nk = normalize_value (dict_get pj nk))
    ∧ (py_truthy (dict_get pj nk) = false →
      canon_get (normalize_prediction pj) nk = normalize_value (dict_get pj ok_)) := by
  constructor
  · intro ht
    rw [core_key_value pj nk ok_ hp]
    simp [json_py_or, ht]
  · intro hf
    rw [core_key_value pj nk ok_ hp]
    simp [json_py_or, hf]

/-- C7 witness: a new-schema `irr` of 15.3 wins outright; with no new-schema
key, `net_irr` is used. -/
theorem c7_witness :
    canon_get (normalize_prediction [(("irr" : String), Json.num (.finite (153 / 10)))]) ("irr") =
      normalize_value (Json.num (.finite (153 / 10)))
    ∧ canon_get (normalize_prediction [(("net_irr" : String), Json.num (.finite (103 / 10)))]) ("irr") =
      normalize_value (Json.num (.finite (103 / 10))) := by
  constructor
  · have h := (c7_core_schema_precedence
      [(("irr" : String), Json.num (.finite (153 / 10)))] ("irr") ("net_irr")
      (by decide)).1 (by norm_num [dict_get, py_truthy, pyf_truthy])
    rw [h]
    rfl
  · have h := (c7_core_schema_precedence
      [(("net_irr" : String), Json.num (.finite (103 / 10)))] ("irr") ("net_irr")
      (by decide)).2 (by rfl)
    rw [h]
    rfl

/-- C7 counterexample: with `irr: 0` and `net_irr: 5` both present, the
canonical `irr` is 5, not the new-schema 0 the claim demands. -/
theorem c7_counterexample :
    canon_get (normalize_prediction
        [(("irr" : String), Json.num (.finite 0)), ("net_irr", Json.num (.finite 5))]) ("irr") =
      some (.finite 5)
    ∧ ¬(canon_get (normalize_prediction
        [(("irr" : String), Json.num (.finite 0)), ("net_irr", Json.num (.finite 5))]) ("irr") =
      some (.finite 0)) := by
  have h : canon_get (normalize_prediction
      [(("irr" : String), Json.num (.finite 0)), ("net_irr", Json.num (.finite 5))]) ("irr") =
      some (.finite 5) := rfl
  refine ⟨h, ?_⟩
  rw [h]
  intro hh
  rw [Option.some_inj] at hh
  have : (5 : ℚ) = 0 := by injection hh
  norm_num at this

/-- C1: when all four expected values (`net_irr`, `net_moic`, `net_dpi`,
`other_metric_value`) are absent from the ground truth, the score computation
returns the explicit not-applicable result (`no_metrics_in_scope` true,
`overall_score_is_na = 1`, empty score field) and never the numeric score 0
or 1; when at least one expected value is present, the overall score is the
ratio of matched to in-scope metrics rounded to four places, with the
not-applicable flags off. -/
theorem c1_score_not_applicable (gt : PyDict) (im mm dm om : ℤ) :
    ((json_is_null (dict_get gt ("net_irr")) = true ∧
      json_is_null (dict_get gt ("net_moic")) = true ∧
      json_is_null (dict_get gt ("net_dpi")) = true ∧
      json_is_null (dict_get gt ("other_metric_value")) = true) →
      (compute_score_from_gt_and_matches gt im mm dm om =
          ⟨false, false, false, false, 0, 0, .blank, true, 1⟩
        ∧ ¬((compute_score_from_gt_and_matches gt im mm dm om).overall_score = .num 0)
        ∧ ¬((compute_score_from_gt_and_matches gt im mm dm om).overall_score = .num 1)))
    ∧ ((json_is_null (dict_get gt ("net_irr")) = false ∨
        json_is_null (dict_get gt ("net_moic")) = false ∨
        json_is_null (dict_get gt ("net_dpi")) = false ∨
        json_is_null (dict_get gt ("other_metric_value")) = false) →
      ((compute_score_from_gt_and_matches gt im mm dm om).no_metrics_in_scope = false
        ∧ (compute_score_from_gt_and_matches gt im mm dm om).overall_score_is_na = 0
        ∧ 0 < (compute_score_from_gt_and_matches gt im mm dm om).score_denom
        ∧ (compute_score_from_gt_and_matches gt im mm dm om).overall_score =
            .num (py_round4
              (((compute_score_from_gt_and_matches gt im mm dm om).score_num : ℚ) /
               ((compute_score_from_gt_and_matches gt im mm dm om).score_denom : ℚ))))) := by
  constructor
  · rintro ⟨h1, h2, h3, h4⟩
    refine ⟨?_, ?_, ?_⟩ <;>
      simp [compute_score_from_gt_and_matches, h1, h2, h3, h4]
  · intro h
    rcases h with h | h | h | h <;>
      by_cases b1 : json_is_null (dict_get gt ("net_irr")) = true <;>
      by_cases b2 : json_is_null (dict_get gt ("net_moic")) = true <;>
      by_cases b3 : json_is_null (dict_get gt ("net_dpi")) = true <;>
      by_cases b4 : json_is_null (dict_get gt ("other_metric_value")) = true <;>
      simp_all [compute_score_from_gt_and_matches]

/-- C1 witness: an empty ground truth scores not-applicable; a ground truth
with one expected metric scores numerically. -/
theorem c1_witness :
    compute_score_from_gt_and_matches [] 1 0 1 0 =
      ⟨false, false, false, false, 0, 0, .blank, true, 1⟩
    ∧ (compute_score_from_gt_and_matches [(("net_irr" : String), Json.num (.finite 10))] 1 1 1 1).no_metrics_in_scope = false
    ∧ (compute_score_from_gt_and_matches [(("net_irr" : String), Json.num (.finite 10))] 1 1 1 1).overall_score_is_na = 0 := by
  refine ⟨?_, ?_, ?_⟩
  · exact ((c1_score_not_applicable [] 1 0 1 0).1 ⟨rfl, rfl, rfl, rfl⟩).1
  · exact ((c1_score_not_applicable [(("net_irr" : String), Json.num (.finite 10))] 1 1 1 1).2
      (Or.inl rfl)).1
  · exact (((c1_score_not_applicable [(("net_irr" : String), Json.num (.finite 10))] 1 1 1 1).2
      (Or.inl rfl)).2).1

/-- The entry loop of the document matcher returns the metrics of the first
entry (in source order) on which any of its rules fires. -/
theorem match_pdf_loop_eq_find (a b c d : String) :
    ∀ entries : List (String × String × PyDict),
      match_pdf_loop a b c d entries =
        (entries.find? (entry_rules_fire a b c d)).map (fun e => e.2.2)
  | [] => rfl
  | (k, st, m) :: rest => by
    have ih := match_pdf_loop_eq_find a b c d rest
    simp only [match_pdf_loop]
    split_ifs with h1 h2 h3 h4 h5 h6
    · rw [List.find?_cons_of_pos _ (show entry_rules_fire a b c d (k, st, m) = true by
        simp only [entry_rules_fire]
        rw [h1]
        simp)]
      rfl
    · rw [List.find?_cons_of_pos _ (show entry_rules_fire a b c d (k, st, m) = true by
        simp only [entry_rules_fire]
        rw [h2]
        simp)]
      rfl
    · rw [List.find?_cons_of_neg _ (show ¬(entry_rules_fire a b c d (k, st, m) = true) by
        have e1 : (normalize_for_match k = a || normalize_for_match k = b) = false := by
          simpa using h1
        have e2 : (normalize_for_match st = a || normalize_for_match st = b) = false := by
          simpa using h2
        have e3 : decide (st.data.length < 3) = true := decide_eq_true h3
        simp only [entry_rules_fire]
        rw [e1, e2, e3]
        simp)]
      exact ih
    · rw [List.find?_cons_of_pos _ (show entry_rules_fire a b c d (k, st, m) = true by
        have e3 : decide (st.data.length < 3) = false := decide_eq_false h3
        simp only [entry_rules_fire]
        rw [e3, h4]
        simp)]
      rfl
    · rw [List.find?_cons_of_pos _ (show entry_rules_fire a b c d (k, st, m) = true by
        have e3 : decide (st.data.length < 3) = false := decide_eq_false h3
        simp only [entry_rules_fire]
        rw [e3, h5]
        simp)]
      rfl
    · rw [List.find?_cons_of_pos _ (show entry_rules_fire a b c d (k, st, m) = true by
        have e3 : decide (st.data.length < 3) = false := decide_eq_false h3
        simp only [entry_rules_fire]
        rw [e3, h6]
        simp)]
      rfl
    · rw [List.find?_cons_of_neg _ (show ¬(entry_rules_fire a b c d (k, st, m) = true) by
        have e1 : (normalize_for_match k = a || normalize_for_match k = b) = false := by
          simpa using h1
        have e2 : (normalize_for_match st = a || normalize_for_match st = b) = false := by
          simpa using h2
        have e4 : (py_contains c (py_lower st) || py_contains (py_lower st) c) = false := by
          simpa using h4
        have e5 : (py_contains c (py_lower k) || py_contains (py_lower k) c) = false := by
          simpa using h5
        simp only [entry_rules_fire]
        rw [e1, e2, e4, e5]
        intro hf
        simp only [Bool.false_or] at hf
        rw [Bool.and_eq_true] at hf
        exact h6 hf.2)]
      exact ih

/-- C4 (amended): document matching tries exact lookup by raw id or stem
first (Python `or`, so an empty-dict value is passed over); it then scans the
ground-truth entries in source order and returns the metrics of the first
entry for which any rule fires, the rules being evaluated per entry -- not in
global priority order: normalized exact equality of the entry id or stem with
the candidate name or stem, then (only when the entry stem has length at
least 3) substring containment either direction between the lower-cased
candidate stem and the entry's lower-cased stem or id, then the requirement
that every length-3-or-longer token of the entry's normalized id occur as a
substring of the candidate's normalized stem. -/
theorem c4_match_first_entry (pdf_name pdf_stem : String)
    (gt_lookup : List (String × PyDict)) (entries : List (String × String × PyDict)) :
    match_pdf_to_ground_truth pdf_name pdf_stem gt_lookup entries =
      (match (if opt_dict_truthy (lookup_get gt_lookup pdf_name) then
          lookup_get gt_lookup pdf_name
        else lookup_get gt_lookup pdf_stem) with
      | some g => some g
      | none =>
        (entries.find? (entry_rules_fire (normalize_for_match pdf_name)
          (normalize_for_match pdf_stem) (py_lower pdf_stem)
          (normalize_for_match pdf_stem))).map (fun e => e.2.2)) := by
  cases hgt : (if opt_dict_truthy (lookup_get gt_lookup pdf_name) then
      lookup_get gt_lookup pdf_name
    else lookup_get gt_lookup pdf_stem) with
  | some g => simp only [match_pdf_to_ground_truth, hgt]
  | none =>
    simp only [match_pdf_to_ground_truth, hgt]
    exact match_pdf_loop_eq_find _ _ _ _ entries

/-- C4 counterexample: with the entry list
`[("xx doc yy", ...), ("doc", ...)]` and candidate `doc`, the code returns the
first entry (it fires by substring containment) although the second entry
matches by the higher-priority normalized-equality rule, which the claimed
global rule ordering would prefer. -/
theorem c4_counterexample :
    match_pdf_to_ground_truth ("doc") ("doc") []
        [("xx doc yy", "xx doc yy", [("net_irr", Json.num (.finite 1))]),
         ("doc", "doc", [("net_irr", Json.num (.finite 2))])] =
      some [("net_irr", Json.num (.finite 1))]
    ∧ spec_match_pdf_to_ground_truth ("doc") ("doc") []
        [("xx doc yy", "xx doc yy", [("net_irr", Json.num (.finite 1))]),
         ("doc", "doc", [("net_irr", Json.num (.finite 2))])] =
      some [("net_irr", Json.num (.finite 2))]
    ∧ ¬([(("net_irr" : String), Json.num (.finite 1))] =
        [(("net_irr" : String), Json.num (.finite 2))]) := by
  refine ⟨rfl, rfl, ?_⟩
  intro h
  injection h with hh _
  have hv : Json.num (.finite 1) = Json.num (.finite 2) := congrArg Prod.snd hh
  injection hv with hx
  injection hx with hq
  norm_num at hq

/-- C8: for a single-sheet workbook whose header row contains no recognizable
identifier column and whose rows fail the alternating and transposed layout
probes, ground-truth loading raises the configuration error carrying the
actually-observed header row, rather than selecting a layout. -/
theorem c8_layout_failure_names_header (row0 : List Cell) (rest : List (List Cell))
    (hid : has_id_col (header_of row0) = false)
    (hA : alternating_probe (row0 :: rest) = false)
    (hB : second_probe (row0 :: rest) = false)
    (hC : third_probe (row0 :: rest) = false) :
    load_ground_truth_from_excel_layout [row0 :: rest] =
      ExcelLayout.config_error (header_of row0) := by
  have h1 : load_ground_truth_from_excel_layout [row0 :: rest] =
      single_sheet_layout (row0 :: rest) := rfl
  rw [h1]
  simp only [single_sheet_layout, hid, hA, hB, hC]
  simp

/-- C8 witness: a two-row sheet with plain text headers matches no layout and
yields the configuration error naming the observed header. -/
theorem c8_witness :
    has_id_col (header_of [Cell.str ("foo"), Cell.str ("bar")]) = false
    ∧ load_ground_truth_from_excel_layout
        [[[Cell.str ("foo"), Cell.str ("bar")], [Cell.str ("baz"), Cell.str ("qux")]]] =
      ExcelLayout.config_error ["foo", "bar"] := by
  constructor
  · rfl
  · have h := c8_layout_failure_names_header [Cell.str ("foo"), Cell.str ("bar")]
      [[Cell.str ("baz"), Cell.str ("qux")]] rfl rfl rfl rfl
    rw [h]
    rfl

/-- C5: with no brace-balanced candidate in the response, the extractor falls
back to regex extraction of the three core metric fields, returning the
non-empty subset found together with the truncated-response error, or -- when
that subset is empty too -- the empty mapping with the no-object error; and
whenever a candidate exists but parsing and every repair fail, it returns the
empty mapping with the first parse error.  The error field, never mapping
emptiness alone, signals failure. -/
theorem c5_failure_semantics (content : String) :
    ((extract_first_json_object (py_strip content) = none →
        (((extract_partial_metrics (py_strip content)).isEmpty = false →
          extract_json_from_response content =
            (extract_partial_metrics (py_strip content),
             some ("Truncated JSON; extracted partial metrics")))
        ∧ ((extract_partial_metrics (py_strip content)).isEmpty = true →
          extract_json_from_response content =
            ([], some ("No JSON object found in response"))))))
    ∧ (∀ snippet err,
        extract_first_json_object (py_strip content) = some snippet →
        try_parse_json snippet = Except.error err →
        is_parse_ok (try_parse_json (repair_invalid_escapes snippet)) = false →
        is_parse_ok (try_parse_json (fix_trailing_commas snippet)) = false →
        is_parse_ok (try_parse_json (repair_invalid_escapes (fix_trailing_commas snippet))) = false →
        extract_json_from_response content = ([], some err)) := by
  constructor
  · intro h
    constructor
    · intro hp
      simp [extract_json_from_response, h, hp]
    · intro hp
      simp [extract_json_from_response, h, hp]
  · intro snippet err hsnip herr h2 h3 h4
    have e2 : ∃ s2, try_parse_json (repair_invalid_escapes snippet) = .error s2 := by
      cases hr : try_parse_json (repair_invalid_escapes snippet) with
      | ok dd => rw [hr] at h2; simp [is_parse_ok] at h2
      | error s => exact ⟨s, rfl⟩
    obtain ⟨s2, e2⟩ := e2
    have e3 : ∃ s3, try_parse_json (fix_trailing_commas snippet) = .error s3 := by
      cases hr : try_parse_json (fix_trailing_commas snippet) with
      | ok dd => rw [hr] at h3; simp [is_parse_ok] at h3
      | error s => exact ⟨s, rfl⟩
    obtain ⟨s3, e3⟩ := e3
    have e4 : ∃ s4, try_parse_json (repair_invalid_escapes (fix_trailing_commas snippet)) =
        .error s4 := by
      cases hr : try_parse_json (repair_invalid_escapes (fix_trailing_commas snippet)) with
      | ok dd => rw [hr] at h4; simp [is_parse_ok] at h4
      | error s => exact ⟨s, rfl⟩
    obtain ⟨s4, e4⟩ := e4
    by_cases hg : err_mentions_escape err = true <;>
      simp [extract_json_from_response, hsnip, herr, hg, e2, e3, e4]

/-- C5 witness: a brace-free response yields the no-object error; a truncated
response with a bare `net_irr` field yields the partial dict and truncated
error; an unparseable candidate yields the empty mapping and the parse
error. -/
theorem c5_witness :
    extract_json_from_response ("no json here") =
      ([], some ("No JSON object found in response"))
    ∧ extract_json_from_response ("\"net_irr\": 26.0 and then the response was cut") =
        (extract_partial_metrics (py_strip ("\"net_irr\": 26.0 and then the response was cut")),
         some ("Truncated JSON; extracted partial metrics"))
    ∧ extract_json_from_response ("\x7b invalid \x7d") =
        ([], some ("Expecting property name enclosed in double quotes")) := by
  refine ⟨?_, ?_, ?_⟩
  · exact ((c5_failure_semantics ("no json here")).1 rfl).2 rfl
  · exact ((c5_failure_semantics ("\"net_irr\": 26.0 and then the response was cut")).1 rfl).1 rfl
  · exact (c5_failure_semantics ("\x7b invalid \x7d")).2 ("\x7b invalid \x7d")
      ("Expecting property name enclosed in double quotes") rfl rfl rfl rfl rfl

/-- C10: structured-response extraction is total by construction, returning a
mapping and an optional error; a `none` error can arise only on the success
paths of this invocation: a brace-balanced snippet was extracted from the
response, and one of the four parse attempts on it -- the snippet itself, its
escape repair, its trailing-comma fix, or the escape repair of that fix --
succeeded via `try_parse_json` with a top-level JSON object whose fields are
exactly the returned mapping (scalars and arrays are rejected as failures, and
the no-candidate and truncated-extraction paths always carry an error). -/
theorem c10_none_error_implies_parsed_object (content : String) (d : PyDict) (e : Option String)
    (hout : extract_json_from_response content = (d, e)) (hnone : e = none) :
    ∃ snippet : String,
      extract_first_json_object (py_strip content) = some snippet
      ∧ ∃ t : String,
          (t = snippet ∨ t = repair_invalid_escapes snippet ∨
            t = fix_trailing_commas snippet ∨
            t = repair_invalid_escapes (fix_trailing_commas snippet))
          ∧ try_parse_json t = Except.ok d
          ∧ json_loads t = Except.ok (Json.obj d) := by
  subst hnone
  unfold extract_json_from_response at hout
  cases hfirst : extract_first_json_object (py_strip content) with
  | none =>
    simp only [hfirst] at hout
    split_ifs at hout <;> simp at hout
  | some snippet =>
    simp only [hfirst] at hout
    refine ⟨snippet, rfl, ?_⟩
    cases hp1 : try_parse_json snippet with
    | ok d0 =>
      simp only [hp1] at hout
      rw [Prod.mk.injEq] at hout
      exact ⟨snippet, Or.inl rfl, hout.1 ▸ hp1,
        hout.1 ▸ try_parse_json_ok_loads snippet d0 hp1⟩
    | error err =>
      simp only [hp1] at hout
      by_cases hg : err_mentions_escape err = true
      · cases hp2 : try_parse_json (repair_invalid_escapes snippet) with
        | ok d2 =>
          simp only [hg, if_true, hp2] at hout
          rw [Prod.mk.injEq] at hout
          exact ⟨repair_invalid_escapes snippet, Or.inr (Or.inl rfl), hout.1 ▸ hp2,
            hout.1 ▸ try_parse_json_ok_loads _ d2 hp2⟩
        | error e2 =>
          cases hp3 : try_parse_json (fix_trailing_commas snippet) with
          | ok d3 =>
            simp only [hg, if_true, hp2, hp3] at hout
            rw [Prod.mk.injEq] at hout
            exact ⟨fix_trailing_commas snippet, Or.inr (Or.inr (Or.inl rfl)), hout.1 ▸ hp3,
              hout.1 ▸ try_parse_json_ok_loads _ d3 hp3⟩
          | error e3 =>
            cases hp4 : try_parse_json (repair_invalid_escapes (fix_trailing_commas snippet)) with
            | ok d4 =>
              simp only [hg, if_true, hp2, hp3, hp4] at hout
              rw [Prod.mk.injEq] at hout
              exact ⟨repair_invalid_escapes (fix_trailing_commas snippet),
                Or.inr (Or.inr (Or.inr rfl)), hout.1 ▸ hp4,
                hout.1 ▸ try_parse_json_ok_loads _ d4 hp4⟩
            | error e4 =>
              simp only [hg, if_true, hp2, hp3, hp4] at hout
              simp at hout
      · have hgf : err_mentions_escape err = false := by
          simpa using hg
        cases hp3 : try_parse_json (fix_trailing_commas snippet) with
        | ok d3 =>
          simp only [hgf, Bool.false_eq_true, if_false, hp3] at hout
          rw [Prod.mk.injEq] at hout
          exact ⟨fix_trailing_commas snippet, Or.inr (Or.inr (Or.inl rfl)), hout.1 ▸ hp3,
            hout.1 ▸ try_parse_json_ok_loads _ d3 hp3⟩
        | error e3 =>
          simp only [hgf, Bool.false_eq_true, if_false, hp3] at hout
          simp at hout

/-- C10 witness: a concrete response parses with no error, and its mapping is
exactly the object obtained by parsing the snippet extracted from that very
response (or one of its repairs). -/
theorem c10_witness :
    ∃ d : PyDict, extract_json_from_response ("\x7b\"irr\": 1\x7d") = (d, none)
      ∧ ∃ snippet : String,
          extract_first_json_object (py_strip ("\x7b\"irr\": 1\x7d")) = some snippet
          ∧ ∃ t : String,
              (t = snippet ∨ t = repair_invalid_escapes snippet ∨
                t = fix_trailing_commas snippet ∨
                t = repair_invalid_escapes (fix_trailing_commas snippet))
              ∧ try_parse_json t = Except.ok d
              ∧ json_loads t = Except.ok (Json.obj d) := by
  refine ⟨_, rfl, ?_⟩
  exact c10_none_error_implies_parsed_object ("\x7b\"irr\": 1\x7d") _ none rfl rfl
